import Mathlib

/-!
A verification development for the per-frame simulation core of the
`mario-kart-16bit` racing game (source: `src/game.js`).

JavaScript numbers are modelled as real numbers (`ℝ`); `Math.sqrt`,
`Math.cos`, `Math.sin` become `Real.sqrt`, `Real.cos`, `Real.sin`, and
`Math.atan2 y x` becomes `Complex.arg ⟨x, y⟩`, which has the same
convention (angle of the point `(x, y)`, zero at the origin).  Mutation
of a `Kart` object becomes explicit state passing: each engine function
takes the pre-state and returns the post-state.  The `Math.random()`
draws of the engine (AI item rolls, power-up contents) are threaded as
explicit oracle parameters.
-/

namespace MarioKart

noncomputable section

open Classical

/-! ## Configuration (the `CONFIG` object of `src/game.js`) -/

def MAX_SPEED : ℝ := 200
def ACCELERATION : ℝ := 120
def DECELERATION : ℝ := 80
def BRAKE_POWER : ℝ := 200
def STEERING_BASE : ℝ := 3.5
def STEERING_SPEED_FACTOR : ℝ := 0.7
def FRICTION : ℝ := 0.98
def DRIFT_GRIP : ℝ := 0.92
def DRIFT_BOOST_RATE : ℝ := 40
def DRIFT_BOOST_MAX : ℝ := 100
def DRIFT_BOOST_SPEED : ℝ := 50
def DRIFT_BOOST_DURATION : ℝ := 1.5
def TRACK_CENTER_X : ℝ := 400
def TRACK_CENTER_Y : ℝ := 300
def TRACK_RADIUS_X : ℝ := 320
def TRACK_RADIUS_Y : ℝ := 220
def TRACK_WIDTH : ℝ := 120
def TOTAL_LAPS : ℕ := 3
def CHECKPOINT_COUNT : ℕ := 4
def RUBBER_BAND_STRENGTH : ℝ := 0.3
def BOOST_DURATION : ℝ := 2
def SHIELD_DURATION : ℝ := 5
def SLOW_DURATION : ℝ := 3
def SLOW_FACTOR : ℝ := 0.5

/-! ## Basic math helpers used by the engine -/

/-- `Math.hypot a b`. -/
def hypot (a b : ℝ) : ℝ := Real.sqrt (a ^ 2 + b ^ 2)

/-- `Math.atan2 y x`, modelled as the argument of the complex number
`x + y·i`; like the JavaScript function it is `0` at the origin. -/
def atan2 (y x : ℝ) : ℝ := Complex.arg ⟨x, y⟩

/-- `Math.sign x` (zero at zero). -/
def jsign (x : ℝ) : ℝ := if x > 0 then 1 else if x < 0 then -1 else 0

/-! ## Items and input state -/

/-- The three power-up contents of `PowerUp.collect`. -/
inductive Item
  | boost
  | shield
  | slow
deriving DecidableEq

/-- The `keys` input vector (the fields read by the physics step). -/
structure Keys where
  up : Bool
  down : Bool
  left : Bool
  right : Bool
  drift : Bool
  useItem : Bool

/-! ## The `Kart` class

Fields that exist only for rendering (`color`, `name`, `width`,
`height`) are omitted; every field read or written by the simulation
core is present. -/

structure Kart where
  x : ℝ
  y : ℝ
  angle : ℝ
  speed : ℝ
  vx : ℝ
  vy : ℝ
  isPlayer : Bool
  drifting : Bool
  driftDirection : ℝ
  driftBoost : ℝ
  driftAngleOffset : ℝ
  boosting : Bool
  boostTimer : ℝ
  slowed : Bool
  slowTimer : ℝ
  shielded : Bool
  shieldTimer : ℝ
  item : Option Item
  lap : ℕ
  checkpoint : ℕ
  lastCheckpoint : ℤ
  totalProgress : ℝ
  rank : ℕ
  finished : Bool
  finishTime : ℝ
  sparkTimer : ℝ

/-- The `Kart` constructor: `new Kart(x, y, angle, color, isPlayer, name)`. -/
def mkKart (x y angle : ℝ) (isPlayer : Bool) : Kart where
  x := x
  y := y
  angle := angle
  speed := 0
  vx := 0
  vy := 0
  isPlayer := isPlayer
  drifting := false
  driftDirection := 0
  driftBoost := 0
  driftAngleOffset := 0
  boosting := false
  boostTimer := 0
  slowed := false
  slowTimer := 0
  shielded := false
  shieldTimer := 0
  item := none
  lap := 0
  checkpoint := 0
  lastCheckpoint := -1
  totalProgress := 0
  rank := 1
  finished := false
  finishTime := 0
  sparkTimer := 0

instance : Inhabited Kart := ⟨mkKart 0 0 0 false⟩

/-- `Kart.getMaxSpeed()`: base max speed, plus the drift-boost bonus while
boosting, times the slow factor while slowed. -/
def Kart.getMaxSpeed (k : Kart) : ℝ :=
  let m := MAX_SPEED
  let m := if k.boosting then m + DRIFT_BOOST_SPEED else m
  if k.slowed then m * SLOW_FACTOR else m

/-- `Kart.update(dt)`: countdown of the boost / slow / shield timers
(each clears its flag when its timer crosses `≤ 0`) and the drift spark
animation timer.  The three timer blocks of the source touch disjoint
fields, so the sequential mutation is written as one record update. -/
def Kart.update (k : Kart) (dt : ℝ) : Kart :=
  { k with
    boostTimer := if k.boostTimer > 0 then k.boostTimer - dt else k.boostTimer
    boosting :=
      if k.boostTimer > 0 ∧ k.boostTimer - dt ≤ 0 then false else k.boosting
    slowTimer := if k.slowTimer > 0 then k.slowTimer - dt else k.slowTimer
    slowed := if k.slowTimer > 0 ∧ k.slowTimer - dt ≤ 0 then false else k.slowed
    shieldTimer := if k.shieldTimer > 0 then k.shieldTimer - dt else k.shieldTimer
    shielded :=
      if k.shieldTimer > 0 ∧ k.shieldTimer - dt ≤ 0 then false else k.shielded
    sparkTimer := if k.drifting then k.sparkTimer + dt else 0 }

/-- `Kart.applyBoost()`. -/
def Kart.applyBoost (k : Kart) : Kart :=
  { k with boosting := true, boostTimer := DRIFT_BOOST_DURATION, driftBoost := 0 }

/-- `Kart.hit()`: a shielded kart consumes its shield and reports no
spin-out (`false`); an unshielded kart spins out, keeping only 30% of
its speed, and reports `true`. -/
def Kart.hit (k : Kart) : Kart × Bool :=
  if k.shielded then ({ k with shielded := false, shieldTimer := 0 }, false)
  else ({ k with speed := k.speed * 0.3 }, true)

/-! ## The `Track` class

The `Track` constructor is deterministic (its fields are computed from
`CONFIG` alone), so the single track instance is embedded as a family of
constants and functions instead of a structure value. -/

def centerX : ℝ := TRACK_CENTER_X
def centerY : ℝ := TRACK_CENTER_Y
def radiusX : ℝ := TRACK_RADIUS_X
def radiusY : ℝ := TRACK_RADIUS_Y
def trackWidth : ℝ := TRACK_WIDTH

/-- Angle of checkpoint `i`: `(i / CHECKPOINT_COUNT) * 2π − π/2`.
The `checkpoints` array of the source has `CHECKPOINT_COUNT = 4`
entries; this function is its generating formula (meaningful for
`i < 4`). -/
def checkpointAngle (i : ℕ) : ℝ :=
  ((i : ℝ) / (CHECKPOINT_COUNT : ℝ)) * (Real.pi * 2) - Real.pi / 2

/-- `x` coordinate of checkpoint `i`. -/
def checkpointX (i : ℕ) : ℝ := centerX + Real.cos (checkpointAngle i) * radiusX

/-- `y` coordinate of checkpoint `i`. -/
def checkpointY (i : ℕ) : ℝ := centerY + Real.sin (checkpointAngle i) * radiusY

/-- Angle of AI waypoint `i` (the source generates 32 waypoints). -/
def waypointAngle (i : ℕ) : ℝ := ((i : ℝ) / 32) * (Real.pi * 2) - Real.pi / 2

/-- Radial variation of waypoint `i`: `sin(angle·3)·15`. -/
def waypointVariation (i : ℕ) : ℝ := Real.sin (waypointAngle i * 3) * 15

/-- `x` coordinate of AI waypoint `i`. -/
def waypointX (i : ℕ) : ℝ :=
  centerX + Real.cos (waypointAngle i) * (radiusX + waypointVariation i)

/-- `y` coordinate of AI waypoint `i`. -/
def waypointY (i : ℕ) : ℝ :=
  centerY + Real.sin (waypointAngle i) * (radiusY + waypointVariation i)

/-- `Track.getTrackDistance(x, y)`: ellipse-normalized distance from the
track center. -/
def getTrackDistance (x y : ℝ) : ℝ :=
  Real.sqrt (((x - centerX) / radiusX) ^ 2 + ((y - centerY) / radiusY) ^ 2)

/-- Scan step of `Track.getNearestWaypoint`: walks the remaining indices
keeping the index of the strictly smallest distance seen so far. -/
def nearestScan (x y : ℝ) : List ℕ → ℕ → ℝ → ℕ
  | [], best, _ => best
  | i :: rest, best, bestDist =>
      let d := hypot (x - waypointX i) (y - waypointY i)
      if d < bestDist then nearestScan x y rest i d
      else nearestScan x y rest best bestDist

/-- `Track.getNearestWaypoint(x, y)`: linear argmin scan over the 32
waypoints.  The source seeds the running minimum with `Infinity`, so
index 0 always wins the first comparison; the scan is therefore seeded
with index 0 and its distance. -/
def getNearestWaypoint (x y : ℝ) : ℕ :=
  nearestScan x y ((List.range 32).drop 1) 0 (hypot (x - waypointX 0) (y - waypointY 0))

/-- `Track.checkCheckpoint(kart, prevX, prevY)` (the `prevX`/`prevY`
arguments of the source are never read by the body and are omitted).
`raceTime` is the current `gameState.raceTime`.  Note the local
`const checkpoint` of the source is captured before any advancement, so
the final `totalProgress` formula measures proximity to the checkpoint
that was the target at entry. -/
def checkCheckpoint (k : Kart) (raceTime : ℝ) : Kart :=
  let cpx := checkpointX k.checkpoint
  let cpy := checkpointY k.checkpoint
  let dist := hypot (k.x - cpx) (k.y - cpy)
  let k1 :=
    if dist < 50 ∧ k.lastCheckpoint ≠ (k.checkpoint : ℤ) then
      let last : ℤ := (k.checkpoint : ℤ)
      let cpNew := (k.checkpoint + 1) % CHECKPOINT_COUNT
      let ka := { k with lastCheckpoint := last, checkpoint := cpNew }
      if cpNew = 0 ∧ last = (CHECKPOINT_COUNT : ℤ) - 1 then
        let kb := { ka with lap := ka.lap + 1 }
        if kb.lap ≥ TOTAL_LAPS ∧ ¬kb.finished then
          { kb with finished := true, finishTime := raceTime }
        else kb
      else ka
    else k
  { k1 with totalProgress :=
      (k1.lap : ℝ) * (CHECKPOINT_COUNT : ℝ) + (k1.checkpoint : ℝ) +
        (1 - hypot (k1.x - cpx) (k1.y - cpy) / 200) }

/-! ## The `PowerUp` class (simulation-relevant fields) -/

structure PowerUp where
  x : ℝ
  y : ℝ
  active : Bool
  respawnTimer : ℝ
  size : ℝ

/-- `PowerUp.collect()`: deactivates the box, starts the 5 second
respawn countdown, and yields a random item; the `Math.random()` draw is
passed in as `rand`. -/
def PowerUp.collect (p : PowerUp) (rand : Item) : PowerUp × Item :=
  ({ p with active := false, respawnTimer := 5 }, rand)

/-! ## Item usage

`useItem(kart)` clears the held item and applies its effect; the `slow`
item afflicts every *other* kart that is not currently shielded.  The
source iterates the global kart list and skips the user by reference
identity; here the other karts are passed (and returned) explicitly. -/

def useItem (k : Kart) (others : List Kart) : Kart × List Kart :=
  let k0 := { k with item := none }
  match k.item with
  | some Item.boost =>
      ({ k0 with boosting := true, boostTimer := BOOST_DURATION }, others)
  | some Item.shield =>
      ({ k0 with shielded := true, shieldTimer := SHIELD_DURATION }, others)
  | some Item.slow =>
      (k0, others.map fun o =>
        if o.shielded then o
        else { o with slowed := true, slowTimer := SLOW_DURATION })
  | none => (k0, others)

/-! ## Player physics step (`updatePlayerKart`) -/

/-- The steering input: `keys.right` overrides `keys.left` (the source
assigns `-1` then `1` in sequence). -/
def playerSteer (keys : Keys) : ℝ :=
  if keys.right then 1 else if keys.left then -1 else 0

/-- Lines 503–516: acceleration / braking / natural deceleration,
followed by the clamp of the speed to `[0, getMaxSpeed()]`. -/
def playerAccelSpeed (k : Kart) (keys : Keys) (dt : ℝ) : ℝ :=
  let s :=
    if keys.up then k.speed + ACCELERATION * dt
    else if keys.down then k.speed - BRAKE_POWER * dt
    else k.speed - DECELERATION * dt * 0.5
  max 0 (min k.getMaxSpeed s)

/-- Lines 519–520: the steering rate shrinks with speed. -/
def steerRateOf (speed : ℝ) : ℝ :=
  STEERING_BASE * (1 - speed / MAX_SPEED * STEERING_SPEED_FACTOR)

/-- `updatePlayerKart(kart, dt)`.  The source reads the global `keys`
and, through `useItem`, the global kart list; both are passed and
returned explicitly (`keys.useItem` is cleared after a use). -/
def updatePlayerKart (k : Kart) (keys : Keys) (dt : ℝ) (others : List Kart) :
    Kart × Keys × List Kart :=
  if k.finished then (k, keys, others) else
  let speed := playerAccelSpeed k keys dt
  let steerRate := steerRateOf speed
  let steering := playerSteer keys
  let k1 := { k with speed := speed }
  let k2 :=
    if keys.drift = true ∧ speed > 50 ∧ steering ≠ 0 then
      -- enter / continue drifting
      let ka := if ¬k1.drifting then
          { k1 with drifting := true, driftDirection := steering }
        else k1
      let newBoost := min DRIFT_BOOST_MAX (ka.driftBoost + DRIFT_BOOST_RATE * dt)
      let kb := { ka with driftBoost := newBoost }
      let newOffset :=
        max (-0.5) (min 0.5
          (kb.driftAngleOffset + kb.driftDirection * steerRate * 0.5 * dt))
      let kc := { kb with driftAngleOffset := newOffset }
      let kd := { kc with angle := kc.angle + steering * steerRate * 0.7 * dt }
      { kd with speed := kd.speed * DRIFT_GRIP }
    else
      -- release drift (boost if charged beyond 30), then normal steering
      let ka :=
        if k1.drifting then
          let kb := if k1.driftBoost > 30 then k1.applyBoost else k1
          { kb with drifting := false, driftAngleOffset := 0, driftBoost := 0 }
        else k1
      { ka with angle := ka.angle + steering * steerRate * dt }
  let moveAngle := k2.angle + k2.driftAngleOffset
  let k3 := { k2 with vx := Real.cos moveAngle * k2.speed * 0.5,
                      vy := Real.sin moveAngle * k2.speed * 0.5 }
  let k4 := { k3 with x := k3.x + k3.vx * dt, y := k3.y + k3.vy * dt }
  if keys.useItem && k4.item.isSome then
    let r := useItem k4 others
    (Kart.update r.1 dt, { keys with useItem := false }, r.2)
  else
    (Kart.update k4 dt, keys, others)

/-! ## AI physics step (`updateAIKart`) -/

/-- Normalization of an angle difference into `[−π, π]`, the closed form
of the two `while` loops
`while (d > π) d -= 2π; while (d < -π) d += 2π;`. -/
def normAngle (d : ℝ) : ℝ :=
  if d > Real.pi then d - Real.pi * 2 * ⌈(d - Real.pi) / (Real.pi * 2)⌉
  else if d < -Real.pi then d + Real.pi * 2 * ⌈(-Real.pi - d) / (Real.pi * 2)⌉
  else d

/-- Lines 601–614: the rubber-banded target speed of an AI kart, before
collision-avoidance adjustments and speed easing.  `85%` of the base max
speed, scaled up by `1 + RUBBER_BAND_STRENGTH` when more than `0.5`
progress behind the player and scaled down by
`1 − RUBBER_BAND_STRENGTH·0.5` when more than `0.5` ahead. -/
def aiTargetSpeed (k : Kart) (playerKart : Option Kart) : ℝ :=
  let t := MAX_SPEED * 0.85
  match playerKart with
  | none => t
  | some p =>
      let positionDiff := k.totalProgress - p.totalProgress
      if positionDiff > 0.5 then t * (1 - RUBBER_BAND_STRENGTH * 0.5)
      else if positionDiff < -0.5 then t * (1 + RUBBER_BAND_STRENGTH)
      else t

/-- Lines 617–633: local collision avoidance.  Folds over the other
karts, rotating the heading away from each kart within 60 units and
scaling the target speed by 0.9 for each kart within 40 units.  The
source iterates the full kart list skipping the kart itself by reference
identity; the list of other karts is passed explicitly. -/
def aiAvoid (x y dt : ℝ) : List Kart → ℝ × ℝ → ℝ × ℝ
  | [], st => st
  | o :: rest, (ang, ts) =>
      let d := hypot (o.x - x) (o.y - y)
      let ang :=
        if d < 60 then
          let avoidAngle := atan2 (y - o.y) (x - o.x)
          let avoidDiff := normAngle (avoidAngle - ang)
          ang + jsign avoidDiff * 0.5 * dt
        else ang
      let ts := if d < 40 then ts * 0.9 else ts
      aiAvoid x y dt rest (ang, ts)

/-- `updateAIKart(kart, dt, track, playerKart, allKarts)`.  `others` is
the kart list without this kart (the source skips itself by reference
identity); `roll` is the `Math.random() < 0.01` item-use draw.  AI item
use can slow the other karts, so the others list is returned as well. -/
def updateAIKart (k : Kart) (dt : ℝ) (playerKart : Option Kart)
    (others : List Kart) (roll : Bool) : Kart × List Kart :=
  if k.finished then (k, others) else
  let targetIndex := (getNearestWaypoint k.x k.y + 3) % 32
  let targetAngle := atan2 (waypointY targetIndex - k.y) (waypointX targetIndex - k.x)
  let angleDiff := normAngle (targetAngle - k.angle)
  let steerRate := STEERING_BASE * 0.8
  let k1 :=
    if |angleDiff| > 0.1 then
      { k with angle := k.angle + jsign angleDiff * min |angleDiff| (steerRate * dt) }
    else k
  let st := aiAvoid k1.x k1.y dt others (k1.angle, aiTargetSpeed k1 playerKart)
  let k2 := { k1 with angle := st.1 }
  let targetSpeed := st.2
  let speed :=
    if k2.speed < targetSpeed then k2.speed + ACCELERATION * 0.8 * dt
    else k2.speed - DECELERATION * 0.5 * dt
  let k3 := { k2 with speed := max 0 (min k2.getMaxSpeed speed) }
  let k4 := { k3 with vx := Real.cos k3.angle * k3.speed * 0.5,
                      vy := Real.sin k3.angle * k3.speed * 0.5 }
  let k5 := { k4 with x := k4.x + k4.vx * dt, y := k4.y + k4.vy * dt }
  if k5.item.isSome && roll then
    let r := useItem k5 others
    (Kart.update r.1 dt, r.2)
  else
    (Kart.update k5 dt, others)

/-! ## Collision detection (`handleCollisions`)

One tick of `handleCollisions(karts, track, powerUps)` runs, in order:
per-kart wall correction, checkpoint check and power-up pickup, and then
the O(n²) kart-to-kart pass. -/

/-- Inner corridor limit `1 − (width/2 − 15) / min(radiusX, radiusY)`. -/
def innerLimit : ℝ := 1 - (trackWidth / 2 - 15) / min radiusX radiusY

/-- Outer corridor limit `1 + (width/2 − 15) / min(radiusX, radiusY)`. -/
def outerLimit : ℝ := 1 + (trackWidth / 2 - 15) / min radiusX radiusY

/-- Lines 667–681: track-boundary correction.  Outside the corridor the
kart loses 30% of its speed and is snapped back onto the violated limit
along the radial line from the track center. -/
def wallCheck (k : Kart) : Kart :=
  let trackDist := getTrackDistance k.x k.y
  if trackDist < innerLimit ∨ trackDist > outerLimit then
    let k1 := { k with speed := k.speed * 0.7 }
    let angle := atan2 (k1.y - centerY) (k1.x - centerX)
    let targetDist := if trackDist < innerLimit then innerLimit else outerLimit
    { k1 with x := centerX + Real.cos angle * targetDist * radiusX,
              y := centerY + Real.sin angle * targetDist * radiusY }
  else k

/-- Lines 687–695: power-up pickup for one kart.  Walks the power-up
list in order; an inactive box or a kart already holding an item is
skipped; a box within pickup radius is collected.  `rand` is the stream
of `Math.random()` item draws and `n` the index of the next draw. -/
def powerUpPass (rand : ℕ → Item) : List PowerUp → Kart → ℕ →
    List PowerUp × Kart × ℕ
  | [], k, n => ([], k, n)
  | p :: rest, k, n =>
      if !p.active then
        let r := powerUpPass rand rest k n
        (p :: r.1, r.2)
      else if k.item.isSome then
        let r := powerUpPass rand rest k n
        (p :: r.1, r.2)
      else
        let dist := hypot (p.x - k.x) (p.y - k.y)
        if dist < p.size + 10 then
          let c := p.collect (rand n)
          let r := powerUpPass rand rest { k with item := some c.2 } (n + 1)
          (c.1 :: r.1, r.2)
        else
          let r := powerUpPass rand rest k n
          (p :: r.1, r.2)

/-- The per-kart phase of `handleCollisions` (lines 665–696): wall
correction, checkpoint check and power-up pickup for each kart in
order, threading the shared power-up list. -/
def collisionPhase1 (raceTime : ℝ) (rand : ℕ → Item) :
    List Kart → List PowerUp → ℕ → List Kart × List PowerUp × ℕ
  | [], ps, n => ([], ps, n)
  | k :: rest, ps, n =>
      let k1 := wallCheck k
      let k2 := checkCheckpoint k1 raceTime
      let r := powerUpPass rand ps k2 n
      let rr := collisionPhase1 raceTime rand rest r.1 r.2.2
      (r.2.1 :: rr.1, rr.2)

/-- Lines 704–722: the body of the kart-to-kart loop for one pair.
Within 25 units the karts are pushed apart symmetrically along the line
joining them and 30% of the speed differential is transferred. -/
def resolvePair (k1 k2 : Kart) : Kart × Kart :=
  let dist := hypot (k2.x - k1.x) (k2.y - k1.y)
  let minDist : ℝ := 25
  if dist < minDist then
    let angle := atan2 (k2.y - k1.y) (k2.x - k1.x)
    let overlap := minDist - dist
    let k1a := { k1 with x := k1.x - Real.cos angle * overlap / 2,
                         y := k1.y - Real.sin angle * overlap / 2 }
    let k2a := { k2 with x := k2.x + Real.cos angle * overlap / 2,
                         y := k2.y + Real.sin angle * overlap / 2 }
    let speedDiff := k1.speed - k2.speed
    ({ k1a with speed := k1a.speed - speedDiff * 0.3 },
     { k2a with speed := k2a.speed + speedDiff * 0.3 })
  else (k1, k2)

/-- Inner loop of the kart-to-kart pass: kart `i` (already mutated by
earlier pairs) against each later kart in order. -/
def resolveInner (k : Kart) : List Kart → Kart × List Kart
  | [] => (k, [])
  | k2 :: rest =>
      let r := resolvePair k k2
      let rr := resolveInner r.1 rest
      (rr.1, r.2 :: rr.2)

/-- `resolveInner` returns as many later karts as it was given. -/
lemma resolveInner_snd_length (k : Kart) (l : List Kart) :
    (resolveInner k l).2.length = l.length := by
  induction l generalizing k with
  | nil => rfl
  | cons k2 rest ih => simp [resolveInner, ih]

/-- Outer loop of the kart-to-kart pass (lines 699–724). -/
def resolveAll : List Kart → List Kart
  | [] => []
  | k :: rest =>
      let r := resolveInner k rest
      r.1 :: resolveAll r.2
termination_by l => l.length
decreasing_by simp [resolveInner_snd_length]

/-- `handleCollisions(karts, track, powerUps)`: the per-kart phase
followed by the kart-to-kart pass.  Returns the updated karts and
power-ups. -/
def handleCollisions (karts : List Kart) (powerUps : List PowerUp)
    (raceTime : ℝ) (rand : ℕ → Item) : List Kart × List PowerUp :=
  let r := collisionPhase1 raceTime rand karts powerUps 0
  (resolveAll r.1, r.2.1)

/-! ## Helper lemmas: `hypot` and `atan2` -/

lemma hypot_nonneg (a b : ℝ) : 0 ≤ hypot a b := Real.sqrt_nonneg _

lemma hypot_x_abs (a : ℝ) : hypot a 0 = |a| := by
  simp [hypot, Real.sqrt_sq_eq_abs]

lemma hypot_x_of_nonneg (a : ℝ) (h : 0 ≤ a) : hypot a 0 = a := by
  rw [hypot_x_abs]; exact abs_of_nonneg h

lemma complexAbs_mk (x y : ℝ) : Complex.abs ⟨x, y⟩ = hypot x y := by
  rw [Complex.abs_apply, Complex.normSq_mk, hypot]
  ring_nf

lemma complex_mk_eq_zero_iff (x y : ℝ) : (⟨x, y⟩ : ℂ) = 0 ↔ x = 0 ∧ y = 0 := by
  rw [Complex.ext_iff]
  simp

lemma cos_atan2 (y x : ℝ) (h : ¬(x = 0 ∧ y = 0)) :
    Real.cos (atan2 y x) = x / hypot x y := by
  have hz : (⟨x, y⟩ : ℂ) ≠ 0 := by
    rw [Ne, complex_mk_eq_zero_iff]; exact h
  rw [atan2, Complex.cos_arg hz, complexAbs_mk]

lemma sin_atan2 (y x : ℝ) : Real.sin (atan2 y x) = y / hypot x y := by
  rw [atan2, Complex.sin_arg, complexAbs_mk]

lemma complex_mk_zero_im (x : ℝ) : (⟨x, 0⟩ : ℂ) = (x : ℂ) := by
  apply Complex.ext <;> simp

lemma atan2_zero_of_nonneg (x : ℝ) (h : 0 ≤ x) : atan2 0 x = 0 := by
  rw [atan2, complex_mk_zero_im]
  exact Complex.arg_ofReal_of_nonneg h

lemma atan2_zero_of_neg (x : ℝ) (h : x < 0) : atan2 0 x = Real.pi := by
  rw [atan2, complex_mk_zero_im]
  exact Complex.arg_ofReal_of_neg h

/-! ## Helper lemmas: `getMaxSpeed` and the speed clamp -/

lemma getMaxSpeed_nonneg (k : Kart) : 0 ≤ k.getMaxSpeed := by
  unfold Kart.getMaxSpeed
  split_ifs <;> norm_num [MAX_SPEED, DRIFT_BOOST_SPEED, SLOW_FACTOR]

lemma playerAccelSpeed_nonneg (k : Kart) (keys : Keys) (dt : ℝ) :
    0 ≤ playerAccelSpeed k keys dt :=
  le_max_left 0 _

lemma playerAccelSpeed_le (k : Kart) (keys : Keys) (dt : ℝ) :
    playerAccelSpeed k keys dt ≤ k.getMaxSpeed := by
  unfold playerAccelSpeed
  exact max_le (getMaxSpeed_nonneg k) (min_le_left _ _)

/-! ## Helper lemmas: fields untouched by each engine function -/

lemma update_speed (k : Kart) (dt : ℝ) : (k.update dt).speed = k.speed := rfl

lemma update_x (k : Kart) (dt : ℝ) : (k.update dt).x = k.x := rfl

lemma update_y (k : Kart) (dt : ℝ) : (k.update dt).y = k.y := rfl

lemma update_finished (k : Kart) (dt : ℝ) : (k.update dt).finished = k.finished := rfl

lemma update_finishTime (k : Kart) (dt : ℝ) : (k.update dt).finishTime = k.finishTime := rfl

lemma update_drifting (k : Kart) (dt : ℝ) : (k.update dt).drifting = k.drifting := rfl

lemma update_driftBoost (k : Kart) (dt : ℝ) : (k.update dt).driftBoost = k.driftBoost := rfl

lemma update_driftAngleOffset (k : Kart) (dt : ℝ) :
    (k.update dt).driftAngleOffset = k.driftAngleOffset := rfl

lemma useItem_fst_speed (k : Kart) (os : List Kart) : (useItem k os).1.speed = k.speed := by
  unfold useItem
  rcases k.item with _ | it
  · rfl
  · cases it <;> rfl

lemma useItem_fst_finished (k : Kart) (os : List Kart) :
    (useItem k os).1.finished = k.finished := by
  unfold useItem
  rcases k.item with _ | it
  · rfl
  · cases it <;> rfl

lemma useItem_fst_finishTime (k : Kart) (os : List Kart) :
    (useItem k os).1.finishTime = k.finishTime := by
  unfold useItem
  rcases k.item with _ | it
  · rfl
  · cases it <;> rfl

lemma useItem_fst_drifting (k : Kart) (os : List Kart) :
    (useItem k os).1.drifting = k.drifting := by
  unfold useItem
  rcases k.item with _ | it
  · rfl
  · cases it <;> rfl

lemma useItem_fst_driftBoost (k : Kart) (os : List Kart) :
    (useItem k os).1.driftBoost = k.driftBoost := by
  unfold useItem
  rcases k.item with _ | it
  · rfl
  · cases it <;> rfl

lemma useItem_fst_driftAngleOffset (k : Kart) (os : List Kart) :
    (useItem k os).1.driftAngleOffset = k.driftAngleOffset := by
  unfold useItem
  rcases k.item with _ | it
  · rfl
  · cases it <;> rfl

lemma checkCheckpoint_x (k : Kart) (t : ℝ) : (checkCheckpoint k t).x = k.x := by
  simp only [checkCheckpoint]
  split_ifs <;> rfl

lemma checkCheckpoint_y (k : Kart) (t : ℝ) : (checkCheckpoint k t).y = k.y := by
  simp only [checkCheckpoint]
  split_ifs <;> rfl

lemma checkCheckpoint_speed (k : Kart) (t : ℝ) : (checkCheckpoint k t).speed = k.speed := by
  simp only [checkCheckpoint]
  split_ifs <;> rfl

lemma checkCheckpoint_shielded (k : Kart) (t : ℝ) :
    (checkCheckpoint k t).shielded = k.shielded := by
  simp only [checkCheckpoint]
  split_ifs <;> rfl

lemma checkCheckpoint_boosting (k : Kart) (t : ℝ) :
    (checkCheckpoint k t).boosting = k.boosting := by
  simp only [checkCheckpoint]
  split_ifs <;> rfl

lemma checkCheckpoint_slowed (k : Kart) (t : ℝ) :
    (checkCheckpoint k t).slowed = k.slowed := by
  simp only [checkCheckpoint]
  split_ifs <;> rfl

lemma checkCheckpoint_item (k : Kart) (t : ℝ) : (checkCheckpoint k t).item = k.item := by
  simp only [checkCheckpoint]
  split_ifs <;> rfl

/-- A kart that has already finished keeps its `finished` flag and its
finish time through a checkpoint check: the lap-completion branch is
guarded by `!kart.finished`. -/
lemma checkCheckpoint_finished_latch (k : Kart) (t : ℝ) (h : k.finished = true) :
    (checkCheckpoint k t).finished = true ∧
      (checkCheckpoint k t).finishTime = k.finishTime := by
  simp only [checkCheckpoint]
  split_ifs with h1 h2 h3
  · exact absurd h3.2 (by simp [h])
  · exact ⟨h, rfl⟩
  · exact ⟨h, rfl⟩
  · exact ⟨h, rfl⟩

lemma wallCheck_finished (k : Kart) : (wallCheck k).finished = k.finished := by
  simp only [wallCheck]
  split_ifs <;> rfl

lemma wallCheck_finishTime (k : Kart) : (wallCheck k).finishTime = k.finishTime := by
  simp only [wallCheck]
  split_ifs <;> rfl

lemma wallCheck_shielded (k : Kart) : (wallCheck k).shielded = k.shielded := by
  simp only [wallCheck]
  split_ifs <;> rfl

lemma wallCheck_speed_nonneg (k : Kart) (h : 0 ≤ k.speed) : 0 ≤ (wallCheck k).speed := by
  simp only [wallCheck]
  split_ifs <;> first
  | exact h
  | nlinarith

lemma powerUpPass_kart (rand : ℕ → Item) (ps : List PowerUp) (k : Kart) (n : ℕ) :
    (powerUpPass rand ps k n).2.1.x = k.x ∧
    (powerUpPass rand ps k n).2.1.y = k.y ∧
    (powerUpPass rand ps k n).2.1.speed = k.speed ∧
    (powerUpPass rand ps k n).2.1.finished = k.finished ∧
    (powerUpPass rand ps k n).2.1.finishTime = k.finishTime ∧
    (powerUpPass rand ps k n).2.1.shielded = k.shielded := by
  induction ps generalizing k n with
  | nil => exact ⟨rfl, rfl, rfl, rfl, rfl, rfl⟩
  | cons p rest ih =>
      simp only [powerUpPass]
      split_ifs <;> exact ih _ _

lemma resolvePair_finished (k1 k2 : Kart) :
    (resolvePair k1 k2).1.finished = k1.finished ∧
    (resolvePair k1 k2).2.finished = k2.finished ∧
    (resolvePair k1 k2).1.finishTime = k1.finishTime ∧
    (resolvePair k1 k2).2.finishTime = k2.finishTime := by
  simp only [resolvePair]
  split_ifs <;> exact ⟨rfl, rfl, rfl, rfl⟩

lemma resolvePair_speed_nonneg (k1 k2 : Kart) (h1 : 0 ≤ k1.speed) (h2 : 0 ≤ k2.speed) :
    0 ≤ (resolvePair k1 k2).1.speed ∧ 0 ≤ (resolvePair k1 k2).2.speed := by
  simp only [resolvePair]
  split_ifs
  · constructor <;> · simp only; nlinarith
  · exact ⟨h1, h2⟩

/-! ## List-level invariants of the collision pass -/

/-- The pair of fields `(finished, finishTime)` of a kart. -/
def raceFlags (k : Kart) : Bool × ℝ := (k.finished, k.finishTime)

lemma resolvePair_raceFlags (k1 k2 : Kart) :
    raceFlags (resolvePair k1 k2).1 = raceFlags k1 ∧
    raceFlags (resolvePair k1 k2).2 = raceFlags k2 := by
  simp only [resolvePair, raceFlags]
  split_ifs <;> exact ⟨rfl, rfl⟩

lemma resolveInner_raceFlags (k : Kart) (l : List Kart) :
    raceFlags (resolveInner k l).1 = raceFlags k ∧
    (resolveInner k l).2.map raceFlags = l.map raceFlags := by
  induction l generalizing k with
  | nil => exact ⟨rfl, rfl⟩
  | cons k2 rest ih =>
      simp only [resolveInner, List.map_cons]
      refine ⟨?_, ?_⟩
      · rw [(ih (resolvePair k k2).1).1, (resolvePair_raceFlags k k2).1]
      · rw [(resolvePair_raceFlags k k2).2, (ih (resolvePair k k2).1).2]

lemma resolveAll_raceFlags : ∀ l : List Kart,
    (resolveAll l).map raceFlags = l.map raceFlags
  | [] => by simp [resolveAll]
  | k :: rest => by
      rw [resolveAll]
      simp only [List.map_cons]
      rw [resolveAll_raceFlags (resolveInner k rest).2]
      rw [(resolveInner_raceFlags k rest).1, (resolveInner_raceFlags k rest).2]
termination_by l => l.length
decreasing_by simp [resolveInner_snd_length]

lemma resolveInner_speed_nonneg (k : Kart) (l : List Kart) (hk : 0 ≤ k.speed)
    (hl : ∀ k2 ∈ l, 0 ≤ k2.speed) :
    0 ≤ (resolveInner k l).1.speed ∧ ∀ k2 ∈ (resolveInner k l).2, 0 ≤ k2.speed := by
  induction l generalizing k with
  | nil => exact ⟨hk, by simp [resolveInner]⟩
  | cons k2 rest ih =>
      have hp := resolvePair_speed_nonneg k k2 hk (hl k2 (by simp))
      have hrest : ∀ kk ∈ rest, 0 ≤ kk.speed := fun kk hkk => hl kk (by simp [hkk])
      have := ih (resolvePair k k2).1 hp.1 hrest
      simp only [resolveInner]
      refine ⟨this.1, ?_⟩
      intro kk hkk
      rcases List.mem_cons.mp hkk with hkk | hkk
      · rw [hkk]; exact hp.2
      · exact this.2 kk hkk

lemma resolveAll_speed_nonneg : ∀ l : List Kart, (∀ k ∈ l, 0 ≤ k.speed) →
    ∀ k ∈ resolveAll l, 0 ≤ k.speed
  | [], _ => by simp [resolveAll]
  | k :: rest, h => by
      rw [resolveAll]
      have hi := resolveInner_speed_nonneg k rest (h k (by simp))
        (fun kk hkk => h kk (by simp [hkk]))
      intro kk hkk
      rcases List.mem_cons.mp hkk with hkk | hkk
      · rw [hkk]; exact hi.1
      · exact resolveAll_speed_nonneg (resolveInner k rest).2 hi.2 kk hkk
termination_by l => l.length
decreasing_by simp [resolveInner_snd_length]

lemma collisionPhase1_speed_nonneg (t : ℝ) (rand : ℕ → Item) :
    ∀ (l : List Kart) (ps : List PowerUp) (n : ℕ), (∀ k ∈ l, 0 ≤ k.speed) →
    ∀ k ∈ (collisionPhase1 t rand l ps n).1, 0 ≤ k.speed := by
  intro l
  induction l with
  | nil => intro ps n _ k hk; simp [collisionPhase1] at hk
  | cons k0 rest ih =>
      intro ps n h k hk
      simp only [collisionPhase1] at hk
      rcases List.mem_cons.mp hk with hk | hk
      · rw [hk]
        rw [(powerUpPass_kart rand ps (checkCheckpoint (wallCheck k0) t) n).2.2.1]
        rw [checkCheckpoint_speed]
        exact wallCheck_speed_nonneg k0 (h k0 (by simp))
      · exact ih _ _ (fun kk hkk => h kk (by simp [hkk])) k hk

/-- Every kart coming out of `handleCollisions` has nonnegative speed if
every kart going in does: the wall penalty multiplies by `0.7` and the
pair momentum exchange forms convex combinations of the two speeds. -/
lemma handleCollisions_speed_nonneg (karts : List Kart) (ps : List PowerUp)
    (t : ℝ) (rand : ℕ → Item) (h : ∀ k ∈ karts, 0 ≤ k.speed) :
    ∀ k ∈ (handleCollisions karts ps t rand).1, 0 ≤ k.speed := by
  intro k hk
  exact resolveAll_speed_nonneg _
    (collisionPhase1_speed_nonneg t rand karts ps 0 h) k hk

lemma collisionPhase1_raceFlags (t : ℝ) (rand : ℕ → Item) :
    ∀ (l : List Kart) (ps : List PowerUp) (n : ℕ) (i : ℕ) (k : Kart),
    l[i]? = some k → k.finished = true →
    ((collisionPhase1 t rand l ps n).1[i]?).map raceFlags = some (true, k.finishTime) := by
  intro l
  induction l with
  | nil => intro ps n i k hik; simp at hik
  | cons k0 rest ih =>
      intro ps n i k hik hfin
      cases i with
      | zero =>
          simp only [List.getElem?_cons_zero, Option.some.injEq] at hik
          simp only [collisionPhase1, List.getElem?_cons_zero, Option.map_some']
          rw [← hik]
          have hf0 : k0.finished = true := by rw [hik]; exact hfin
          have h1 := powerUpPass_kart rand ps (checkCheckpoint (wallCheck k0) t) n
          have h2 := checkCheckpoint_finished_latch (wallCheck k0) t
            (by rw [wallCheck_finished]; exact hf0)
          simp only [raceFlags, h1.2.2.2.1, h1.2.2.2.2.1, h2.1,
            h2.2, wallCheck_finishTime]
      | succ j =>
          simp only [List.getElem?_cons_succ] at hik
          simp only [collisionPhase1, List.getElem?_cons_succ]
          exact ih _ _ j k hik hfin

/-! ## Concrete geometry evaluations -/

lemma checkpointAngle_zero : checkpointAngle 0 = -(Real.pi / 2) := by
  unfold checkpointAngle CHECKPOINT_COUNT
  push_cast
  ring

lemma checkpointAngle_one : checkpointAngle 1 = 0 := by
  unfold checkpointAngle CHECKPOINT_COUNT
  push_cast
  ring

lemma checkpointX_zero : checkpointX 0 = 400 := by
  rw [checkpointX, checkpointAngle_zero, Real.cos_neg, Real.cos_pi_div_two]
  norm_num [centerX, TRACK_CENTER_X]

lemma checkpointY_zero : checkpointY 0 = 80 := by
  rw [checkpointY, checkpointAngle_zero, Real.sin_neg, Real.sin_pi_div_two]
  norm_num [centerY, TRACK_CENTER_Y, radiusY, TRACK_RADIUS_Y]

lemma checkpointX_one : checkpointX 1 = 720 := by
  rw [checkpointX, checkpointAngle_one, Real.cos_zero]
  norm_num [centerX, TRACK_CENTER_X, radiusX, TRACK_RADIUS_X]

lemma checkpointY_one : checkpointY 1 = 300 := by
  rw [checkpointY, checkpointAngle_one, Real.sin_zero]
  norm_num [centerY, TRACK_CENTER_Y]

lemma innerLimit_eq : innerLimit = 175 / 220 := by
  rw [innerLimit, min_eq_right (by norm_num [radiusX, radiusY,
    TRACK_RADIUS_X, TRACK_RADIUS_Y] : radiusY ≤ radiusX)]
  norm_num [trackWidth, TRACK_WIDTH, radiusY, TRACK_RADIUS_Y]

lemma outerLimit_eq : outerLimit = 265 / 220 := by
  rw [outerLimit, min_eq_right (by norm_num [radiusX, radiusY,
    TRACK_RADIUS_X, TRACK_RADIUS_Y] : radiusY ≤ radiusX)]
  norm_num [trackWidth, TRACK_WIDTH, radiusY, TRACK_RADIUS_Y]

/-- On the horizontal line through the track center the normalized track
distance is `|x − 400| / 320`. -/
lemma getTrackDistance_y300 (x : ℝ) : getTrackDistance x 300 = |x - 400| / 320 := by
  unfold getTrackDistance centerX centerY radiusX radiusY
  unfold TRACK_CENTER_X TRACK_CENTER_Y TRACK_RADIUS_X TRACK_RADIUS_Y
  norm_num
  rw [Real.sqrt_sq_eq_abs, abs_div]
  norm_num

/-- The all-false input vector. -/
def keysOff : Keys := ⟨false, false, false, false, false, false⟩

/-! ## Claim C10 -/

/-- C10: for a kart whose `finished` flag is set, both per-kart physics
steps return immediately: `updatePlayerKart` leaves the kart, the input
vector and the other karts unchanged, and `updateAIKart` leaves the kart
and the other karts unchanged. -/
theorem C10_finished_step_identity (k : Kart) (keys : Keys) (dt : ℝ)
    (others : List Kart) (playerKart : Option Kart) (roll : Bool)
    (h : k.finished = true) :
    updatePlayerKart k keys dt others = (k, keys, others) ∧
    updateAIKart k dt playerKart others roll = (k, others) := by
  constructor
  · simp only [updatePlayerKart, h, if_true]
  · simp only [updateAIKart, h, if_true]

/-- Witness for C10 at a concrete finished kart. -/
theorem C10_finished_step_identity_witness :
    updatePlayerKart { mkKart 400 80 0 true with finished := true } keysOff (1 / 60) [] =
      ({ mkKart 400 80 0 true with finished := true }, keysOff, []) ∧
    updateAIKart { mkKart 400 80 0 true with finished := true } (1 / 60) none [] false =
      ({ mkKart 400 80 0 true with finished := true }, []) :=
  C10_finished_step_identity _ keysOff (1 / 60) [] none false rfl

/-! ## Claim C5 -/

/-- C5: finishing is a one-way latch.  A kart with `finished = true` is
returned untouched by both physics steps (in particular `finished` and
`finishTime` are unchanged), and the collision pass — wall correction,
checkpoint check, power-up pickup and kart-to-kart resolution — always
returns it with `finished` still `true` and the same `finishTime`. -/
theorem C5_finish_latch :
    (∀ (k : Kart) (keys : Keys) (dt : ℝ) (others : List Kart), k.finished = true →
      (updatePlayerKart k keys dt others).1.finished = true ∧
      (updatePlayerKart k keys dt others).1.finishTime = k.finishTime) ∧
    (∀ (k : Kart) (dt : ℝ) (p : Option Kart) (others : List Kart) (roll : Bool),
      k.finished = true →
      (updateAIKart k dt p others roll).1.finished = true ∧
      (updateAIKart k dt p others roll).1.finishTime = k.finishTime) ∧
    (∀ (karts : List Kart) (ps : List PowerUp) (t : ℝ) (rand : ℕ → Item)
      (i : ℕ) (k : Kart), karts[i]? = some k → k.finished = true →
      Option.map raceFlags (handleCollisions karts ps t rand).1[i]? =
        some (true, k.finishTime)) := by
  refine ⟨?_, ?_, ?_⟩
  · intro k keys dt others h
    simp [updatePlayerKart, h]
  · intro k dt p others roll h
    simp [updateAIKart, h]
  · intro karts ps t rand i k hik hfin
    simp only [handleCollisions]
    have hmap := resolveAll_raceFlags (collisionPhase1 t rand karts ps 0).1
    have : Option.map raceFlags (resolveAll (collisionPhase1 t rand karts ps 0).1)[i]? =
        Option.map raceFlags (collisionPhase1 t rand karts ps 0).1[i]? := by
      rw [← List.getElem?_map, ← List.getElem?_map, hmap]
    rw [this]
    exact collisionPhase1_raceFlags t rand karts ps 0 i k hik hfin

/-- Witness for C5 at a concrete finished kart. -/
theorem C5_finish_latch_witness :
    (updatePlayerKart { mkKart 400 80 0 true with finished := true, finishTime := 5 }
        keysOff (1 / 60) []).1.finished = true ∧
    Option.map raceFlags
        (handleCollisions [{ mkKart 400 80 0 true with finished := true, finishTime := 5 }]
          [] 0 (fun _ => Item.boost)).1[0]? = some (true, 5) :=
  ⟨(C5_finish_latch.1 _ keysOff (1 / 60) [] rfl).1,
    C5_finish_latch.2.2 _ [] 0 _ 0 _ rfl rfl⟩

/-! ## Claim C6 -/

/-- C6: the target checkpoint index stays inside `[0, CHECKPOINT_COUNT)`
and changes only on a crossing event (proximity under 50 to the current
target with the re-trigger guard passing), in which case it advances by
exactly `+1 mod CHECKPOINT_COUNT`. -/
theorem C6_checkpoint_advance (k : Kart) (t : ℝ)
    (h : k.checkpoint < CHECKPOINT_COUNT) :
    (checkCheckpoint k t).checkpoint < CHECKPOINT_COUNT ∧
    (checkCheckpoint k t).checkpoint =
      (if hypot (k.x - checkpointX k.checkpoint) (k.y - checkpointY k.checkpoint) < 50
          ∧ k.lastCheckpoint ≠ (k.checkpoint : ℤ)
        then (k.checkpoint + 1) % CHECKPOINT_COUNT else k.checkpoint) := by
  simp only [checkCheckpoint]
  split_ifs with h1 h2 h3 <;>
    first
    | exact ⟨Nat.mod_lt _ (by norm_num [CHECKPOINT_COUNT]), rfl⟩
    | exact ⟨h, rfl⟩

/-- Witness for C6: a kart sitting on checkpoint 0 with the guard open
advances to checkpoint 1. -/
theorem C6_checkpoint_advance_witness :
    (checkCheckpoint (mkKart 400 80 0 false) 0).checkpoint < CHECKPOINT_COUNT ∧
    (checkCheckpoint (mkKart 400 80 0 false) 0).checkpoint =
      (if hypot ((mkKart 400 80 0 false).x - checkpointX (mkKart 400 80 0 false).checkpoint)
            ((mkKart 400 80 0 false).y - checkpointY (mkKart 400 80 0 false).checkpoint) < 50
          ∧ (mkKart 400 80 0 false).lastCheckpoint ≠ ((mkKart 400 80 0 false).checkpoint : ℤ)
        then ((mkKart 400 80 0 false).checkpoint + 1) % CHECKPOINT_COUNT
        else (mkKart 400 80 0 false).checkpoint) :=
  C6_checkpoint_advance (mkKart 400 80 0 false) 0 (by norm_num [mkKart, CHECKPOINT_COUNT])

/-! ## Claim C8 -/

/-- C8: the rubber-banded AI target speed (the target-speed stage of
`updateAIKart`, before collision-avoidance reductions and easing) is
`0.85·MAX_SPEED` scaled by `1 + RUBBER_BAND_STRENGTH` when the AI kart
is more than `0.5` progress behind the player, by
`1 − RUBBER_BAND_STRENGTH·0.5` when more than `0.5` ahead, and is
unscaled otherwise; in particular an AI kart at progress `1.0` against a
player at `1.6` gets `0.85·200·1.3 = 221`. -/
theorem C8_rubber_band (k p : Kart) :
    (k.totalProgress - p.totalProgress < -0.5 →
      aiTargetSpeed k (some p) = MAX_SPEED * 0.85 * (1 + RUBBER_BAND_STRENGTH)) ∧
    (k.totalProgress - p.totalProgress > 0.5 →
      aiTargetSpeed k (some p) = MAX_SPEED * 0.85 * (1 - RUBBER_BAND_STRENGTH * 0.5)) ∧
    (-0.5 ≤ k.totalProgress - p.totalProgress → k.totalProgress - p.totalProgress ≤ 0.5 →
      aiTargetSpeed k (some p) = MAX_SPEED * 0.85) ∧
    aiTargetSpeed { mkKart 0 0 0 false with totalProgress := 1 }
      (some { mkKart 0 0 0 false with totalProgress := 1.6 }) = 221 := by
  refine ⟨?_, ?_, ?_, ?_⟩
  · intro h
    simp only [aiTargetSpeed]
    rw [if_neg (by linarith), if_pos h]
  · intro h
    simp only [aiTargetSpeed]
    rw [if_pos h]
  · intro h1 h2
    simp only [aiTargetSpeed]
    rw [if_neg (by linarith), if_neg (by linarith)]
  · simp only [aiTargetSpeed]
    rw [if_neg (by norm_num [mkKart]), if_pos (by norm_num [mkKart])]
    norm_num [MAX_SPEED, RUBBER_BAND_STRENGTH]

/-- Witness for C8: the catch-up branch at the scenario values. -/
theorem C8_rubber_band_witness :
    aiTargetSpeed { mkKart 0 0 0 false with totalProgress := 1 }
      (some { mkKart 0 0 0 false with totalProgress := 1.6 }) =
      MAX_SPEED * 0.85 * (1 + RUBBER_BAND_STRENGTH) :=
  (C8_rubber_band { mkKart 0 0 0 false with totalProgress := 1 }
    { mkKart 0 0 0 false with totalProgress := 1.6 }).1 (by norm_num [mkKart])

/-! ## Evaluation helpers for concrete runs of the collision pass -/

lemma wallCheck_nofire (k : Kart)
    (h : ¬(getTrackDistance k.x k.y < innerLimit ∨ getTrackDistance k.x k.y > outerLimit)) :
    wallCheck k = k := by
  simp only [wallCheck]
  rw [if_neg h]

lemma resolveAll_singleton (k : Kart) : resolveAll [k] = [k] := by
  rw [resolveAll]
  simp [resolveInner, resolveAll]

lemma handleCollisions_singleton (k : Kart) (t : ℝ) (rand : ℕ → Item) :
    (handleCollisions [k] [] t rand).1 = [checkCheckpoint (wallCheck k) t] := by
  simp only [handleCollisions, collisionPhase1, powerUpPass]
  exact resolveAll_singleton _

lemma getMaxSpeed_base (k : Kart) (hb : k.boosting = false) (hs : k.slowed = false) :
    k.getMaxSpeed = MAX_SPEED := by
  simp [Kart.getMaxSpeed, hb, hs]

/-! ## Claim C2 -/

/-- C2 counterexample: the collision pass never calls `Kart.hit`.  A
shielded kart standing outside the outer corridor limit goes through a
wall event in `handleCollisions` and comes out with the shield still up
(`shielded = true`, not cleared) and the wall speed penalty applied
(`speed = 100 · 0.7 = 70`, not prevented), contradicting "the next
collision/wall event clears the shielded flag and does not apply the
speed penalty". -/
theorem C2_shield_cex :
    ((handleCollisions
        [{ mkKart 800 300 0 false with shielded := true, speed := 100 }]
        [] 0 (fun _ => Item.boost)).1.getD 0 default).shielded = true ∧
    ((handleCollisions
        [{ mkKart 800 300 0 false with shielded := true, speed := 100 }]
        [] 0 (fun _ => Item.boost)).1.getD 0 default).speed = 70 := by
  rw [handleCollisions_singleton]
  have hfire : getTrackDistance (800 : ℝ) 300 < innerLimit ∨
      getTrackDistance (800 : ℝ) 300 > outerLimit := by
    right
    rw [getTrackDistance_y300, outerLimit_eq]
    norm_num
  constructor
  · simp only [List.getD, List.get?_cons_zero, List.getElem?_cons_zero, Option.getD_some]
    rw [checkCheckpoint_shielded, wallCheck_shielded]
  · simp only [List.getD, List.get?_cons_zero, List.getElem?_cons_zero, Option.getD_some]
    rw [checkCheckpoint_speed]
    simp only [wallCheck, mkKart]
    rw [if_pos hfire]
    norm_num

/-- C2 amended: `Kart.hit` itself does absorb exactly one hit — a
shielded kart consuming `hit()` clears the shield, leaves the speed untouched
and reports no spin-out, and a second `hit()` on the now-unshielded kart
applies the `×0.3` spin-out penalty — but `handleCollisions` never
invokes `hit()`: wall and kart-kart collision events apply their speed
penalties regardless of the shield and do not consume it. -/
theorem C2_hit_absorbs_one (k : Kart) (h : k.shielded = true) :
    k.hit.1.shielded = false ∧ k.hit.1.speed = k.speed ∧ k.hit.2 = false ∧
    k.hit.1.hit.1.speed = k.speed * 0.3 ∧ k.hit.1.hit.2 = true := by
  simp [Kart.hit, h]

/-- Witness for the amended C2 at a concrete shielded kart. -/
theorem C2_hit_absorbs_one_witness :
    ({ mkKart 0 0 0 false with shielded := true, speed := 100 } : Kart).hit.1.shielded = false ∧
    ({ mkKart 0 0 0 false with shielded := true, speed := 100 } : Kart).hit.1.speed =
      ({ mkKart 0 0 0 false with shielded := true, speed := 100 } : Kart).speed ∧
    ({ mkKart 0 0 0 false with shielded := true, speed := 100 } : Kart).hit.2 = false ∧
    ({ mkKart 0 0 0 false with shielded := true, speed := 100 } : Kart).hit.1.hit.1.speed =
      ({ mkKart 0 0 0 false with shielded := true, speed := 100 } : Kart).speed * 0.3 ∧
    ({ mkKart 0 0 0 false with shielded := true, speed := 100 } : Kart).hit.1.hit.2 = true :=
  C2_hit_absorbs_one { mkKart 0 0 0 false with shielded := true, speed := 100 } rfl

/-! ## Claim C9 -/

lemma atan2_origin : atan2 0 0 = 0 := by
  have h0 : (⟨0, 0⟩ : ℂ) = 0 := by
    apply Complex.ext <;> simp
  rw [atan2, h0]
  exact Complex.arg_zero

lemma hypot_pos (a b : ℝ) (h : ¬(a = 0 ∧ b = 0)) : 0 < hypot a b := by
  apply Real.sqrt_pos.mpr
  rcases not_and_or.mp h with ha | hb
  · have h2 : 0 < a ^ 2 := pow_two_pos_of_ne_zero ha
    nlinarith [sq_nonneg b]
  · have h2 : 0 < b ^ 2 := pow_two_pos_of_ne_zero hb
    nlinarith [sq_nonneg a]

/-- Snapping to ellipse-normalized distance `tD` along the radial
direction through `(dx, dy)` lands exactly at track distance `tD`: the
per-axis radii cancel because the snap multiplies the unit direction by
`tD·radiusX` and `tD·radiusY` respectively. -/
lemma snap_distance (dx dy tD : ℝ) (htD : 0 ≤ tD) :
    getTrackDistance (centerX + Real.cos (atan2 dy dx) * tD * radiusX)
      (centerY + Real.sin (atan2 dy dx) * tD * radiusY) = tD := by
  unfold getTrackDistance
  have hrx : radiusX ≠ 0 := by norm_num [radiusX, TRACK_RADIUS_X]
  have hry : radiusY ≠ 0 := by norm_num [radiusY, TRACK_RADIUS_Y]
  have hx : (centerX + Real.cos (atan2 dy dx) * tD * radiusX - centerX) / radiusX
      = Real.cos (atan2 dy dx) * tD := by field_simp
  have hy : (centerY + Real.sin (atan2 dy dx) * tD * radiusY - centerY) / radiusY
      = Real.sin (atan2 dy dx) * tD := by field_simp
  rw [hx, hy]
  by_cases hz : dx = 0 ∧ dy = 0
  · rw [hz.1, hz.2, atan2_origin, Real.cos_zero, Real.sin_zero]
    rw [show (1 * tD) ^ 2 + (0 * tD) ^ 2 = tD ^ 2 by ring]
    exact Real.sqrt_sq htD
  · rw [cos_atan2 dy dx hz, sin_atan2 dy dx]
    have hr : 0 < hypot dx dy := hypot_pos dx dy hz
    have hr2 : hypot dx dy ^ 2 = dx ^ 2 + dy ^ 2 := Real.sq_sqrt (by positivity)
    have hsum : (dx / hypot dx dy * tD) ^ 2 + (dy / hypot dx dy * tD) ^ 2 = tD ^ 2 := by
      field_simp
      linear_combination (-(tD ^ 2)) * hr2
    rw [hsum]
    exact Real.sqrt_sq htD

/-- C9: whenever the track-boundary correction fires, the corrected
position lands exactly on the violated corridor limit: snapping below
the inner limit gives `getTrackDistance = innerLimit`, snapping beyond
the outer limit gives `getTrackDistance = outerLimit`. -/
theorem C9_wall_snap (k : Kart) :
    (getTrackDistance k.x k.y < innerLimit →
      getTrackDistance (wallCheck k).x (wallCheck k).y = innerLimit) ∧
    (getTrackDistance k.x k.y > outerLimit →
      getTrackDistance (wallCheck k).x (wallCheck k).y = outerLimit) := by
  have hio : innerLimit < outerLimit := by
    rw [innerLimit_eq, outerLimit_eq]; norm_num
  have hin : (0 : ℝ) ≤ innerLimit := by rw [innerLimit_eq]; norm_num
  have hout : (0 : ℝ) ≤ outerLimit := by rw [outerLimit_eq]; norm_num
  constructor
  · intro h
    simp only [wallCheck]
    rw [if_pos (Or.inl h), if_pos h]
    exact snap_distance _ _ innerLimit hin
  · intro h
    simp only [wallCheck]
    rw [if_pos (Or.inr h), if_neg (by linarith)]
    exact snap_distance _ _ outerLimit hout

/-- Witness for C9: a kart at `(800, 300)` (track distance `1.25`, past
the outer limit) is snapped exactly onto the outer limit. -/
theorem C9_wall_snap_witness :
    getTrackDistance (wallCheck (mkKart 800 300 0 false)).x
      (wallCheck (mkKart 800 300 0 false)).y = outerLimit :=
  (C9_wall_snap (mkKart 800 300 0 false)).2 (by
    show getTrackDistance 800 300 > outerLimit
    rw [getTrackDistance_y300, outerLimit_eq]
    norm_num)

/-! ## Claim C3 -/

/-- `checkCheckpoint` always ends by recomputing `totalProgress` as
`lap·CHECKPOINT_COUNT + checkpoint + (1 − d/200)` where `lap` and
`checkpoint` are the post-advancement values but `d` is the distance to
the checkpoint that was the target at entry (the `const checkpoint`
captured before any advancement). -/
lemma checkCheckpoint_totalProgress (k : Kart) (t : ℝ) :
    (checkCheckpoint k t).totalProgress =
      ((checkCheckpoint k t).lap : ℝ) * (CHECKPOINT_COUNT : ℝ) +
      ((checkCheckpoint k t).checkpoint : ℝ) +
      (1 - hypot (k.x - checkpointX k.checkpoint) (k.y - checkpointY k.checkpoint) / 200) := by
  simp only [checkCheckpoint]
  split_ifs <;> rfl

/-- Without a crossing event the lap and checkpoint fields are
unchanged. -/
lemma checkCheckpoint_nocross (k : Kart) (t : ℝ)
    (h : ¬(hypot (k.x - checkpointX k.checkpoint) (k.y - checkpointY k.checkpoint) < 50
      ∧ k.lastCheckpoint ≠ (k.checkpoint : ℤ))) :
    (checkCheckpoint k t).lap = k.lap ∧ (checkCheckpoint k t).checkpoint = k.checkpoint := by
  simp only [checkCheckpoint]
  rw [if_neg h]
  exact ⟨rfl, rfl⟩

/-- C3 amended: after checkpoint resolution `totalProgress` equals
`lap·checkpointCount + currentCheckpointIndex + f` with
`f = 1 − d/200`, where `d` is the distance to the checkpoint that was
the target when the check started (on a crossing tick this is the
just-crossed checkpoint, not the new target); `f` is strictly higher
the closer the kart is to that checkpoint, but `f` is not confined to
`[0, 1)`: it is negative whenever `d > 200` (and equals `1` at
`d = 0`). -/
theorem C3_progress_formula (k : Kart) (t : ℝ) :
    (checkCheckpoint k t).totalProgress =
      ((checkCheckpoint k t).lap : ℝ) * (CHECKPOINT_COUNT : ℝ) +
      ((checkCheckpoint k t).checkpoint : ℝ) +
      (1 - hypot (k.x - checkpointX k.checkpoint) (k.y - checkpointY k.checkpoint) / 200) ∧
    (∀ d1 d2 : ℝ, d1 < d2 → 1 - d2 / 200 < 1 - d1 / 200) :=
  ⟨checkCheckpoint_totalProgress k t, fun _ _ h => by linarith⟩

/-- Witness for C3 at a concrete kart together with a concrete strict
antitonicity instance of the fractional term. -/
theorem C3_progress_formula_witness :
    (checkCheckpoint (mkKart 400 80 0 false) 0).totalProgress =
      ((checkCheckpoint (mkKart 400 80 0 false) 0).lap : ℝ) * (CHECKPOINT_COUNT : ℝ) +
      ((checkCheckpoint (mkKart 400 80 0 false) 0).checkpoint : ℝ) +
      (1 - hypot ((mkKart 400 80 0 false).x - checkpointX (mkKart 400 80 0 false).checkpoint)
        ((mkKart 400 80 0 false).y - checkpointY (mkKart 400 80 0 false).checkpoint) / 200) ∧
    (1 - (100 : ℝ) / 200 < 1 - 50 / 200) :=
  ⟨(C3_progress_formula (mkKart 400 80 0 false) 0).1,
    (C3_progress_formula (mkKart 400 80 0 false) 0).2 50 100 (by norm_num)⟩

/-- C3 counterexample: a kart at `(80, 300)` whose target checkpoint is
checkpoint 1 at `(720, 300)` is `640 > 200` away from it, so the
fractional term `1 − 640/200 = −2.2` is negative and `totalProgress`
is `0·4 + 1 + (−2.2) = −1.2`: the fractional term does not lie in
`[0, 1)`. -/
theorem C3_progress_cex :
    (checkCheckpoint { mkKart 80 300 0 false with checkpoint := 1 } 0).totalProgress = -1.2 ∧
    (checkCheckpoint { mkKart 80 300 0 false with checkpoint := 1 } 0).totalProgress -
      (((checkCheckpoint { mkKart 80 300 0 false with checkpoint := 1 } 0).lap : ℝ) *
        (CHECKPOINT_COUNT : ℝ) +
       ((checkCheckpoint { mkKart 80 300 0 false with checkpoint := 1 } 0).checkpoint : ℝ)) < 0 := by
  have hd : hypot (({ mkKart 80 300 0 false with checkpoint := 1 } : Kart).x -
      checkpointX ({ mkKart 80 300 0 false with checkpoint := 1 } : Kart).checkpoint)
      (({ mkKart 80 300 0 false with checkpoint := 1 } : Kart).y -
      checkpointY ({ mkKart 80 300 0 false with checkpoint := 1 } : Kart).checkpoint) = 640 := by
    show hypot ((80 : ℝ) - checkpointX 1) ((300 : ℝ) - checkpointY 1) = 640
    rw [checkpointX_one, checkpointY_one,
      show (80 : ℝ) - 720 = -640 by norm_num,
      show (300 : ℝ) - 300 = 0 by norm_num, hypot_x_abs]
    norm_num
  have hnc := checkCheckpoint_nocross { mkKart 80 300 0 false with checkpoint := 1 } 0
    (by rw [hd]; norm_num)
  have hform := checkCheckpoint_totalProgress { mkKart 80 300 0 false with checkpoint := 1 } 0
  constructor
  · rw [hform, hnc.1, hnc.2, hd]
    show ((mkKart 80 300 0 false).lap : ℝ) * 4 + ((1 : ℕ) : ℝ) + (1 - 640 / 200) = -1.2
    norm_num [mkKart]
  · rw [hform, hnc.1, hnc.2, hd]
    ring_nf
    norm_num

/-! ## Claim C7 -/

/-- C7: on a tick where the player kart exits drift (the drift branch
condition fails: drift-hold released, steering zero, or the post-clamp
speed at most 50) the drift state is torn down — `driftAngleOffset` is
reset to 0 whether or not a boost fired, `drifting` becomes false and
the charge is cleared — and the timed boost is applied exactly when the
accumulated charge strictly exceeds 30: `boosting` is set with the fixed
`DRIFT_BOOST_DURATION` on the timer (read at the end of the step, after
the timer decays by `dt`); with charge at most 30 the boost state is
exactly what the plain timer countdown of `Kart.update` gives.  (Item
use is excluded by hypothesis: an item-boost fired on the same tick
would overwrite the timer through the shared `boosting`/`boostTimer`
fields.) -/
theorem C7_drift_release (k : Kart) (keys : Keys) (dt : ℝ) (others : List Kart)
    (hfin : k.finished = false) (hdr : k.drifting = true)
    (hdt0 : 0 < dt) (hdt : dt ≤ 0.05)
    (hitem : keys.useItem = false ∨ k.item = none)
    (hexit : ¬(keys.drift = true ∧ playerAccelSpeed k keys dt > 50 ∧ playerSteer keys ≠ 0)) :
    (updatePlayerKart k keys dt others).1.driftAngleOffset = 0 ∧
    (updatePlayerKart k keys dt others).1.drifting = false ∧
    (updatePlayerKart k keys dt others).1.driftBoost = 0 ∧
    (k.driftBoost > 30 →
      (updatePlayerKart k keys dt others).1.boosting = true ∧
      (updatePlayerKart k keys dt others).1.boostTimer = DRIFT_BOOST_DURATION - dt) ∧
    (k.driftBoost ≤ 30 →
      (updatePlayerKart k keys dt others).1.boosting = (k.update dt).boosting ∧
      (updatePlayerKart k keys dt others).1.boostTimer = (k.update dt).boostTimer) := by
  simp only [updatePlayerKart, hfin, hdr, hexit, Bool.false_eq_true, if_false, if_true,
    eq_self_iff_true]
  by_cases hb : k.driftBoost > 30
  · simp only [hb, if_true, Kart.applyBoost]
    rcases hitem with hu | hi
    · simp only [hu, Bool.false_and, Bool.false_eq_true, if_false]
      refine ⟨rfl, rfl, rfl, fun _ => ⟨?_, ?_⟩, fun hle => absurd hb (not_lt.mpr hle)⟩
      · show (if DRIFT_BOOST_DURATION > 0 ∧ DRIFT_BOOST_DURATION - dt ≤ 0 then false
            else true) = true
        rw [if_neg]
        rintro ⟨-, h2⟩
        rw [DRIFT_BOOST_DURATION] at h2
        linarith
      · show (if DRIFT_BOOST_DURATION > 0 then DRIFT_BOOST_DURATION - dt
            else DRIFT_BOOST_DURATION) = DRIFT_BOOST_DURATION - dt
        rw [if_pos (by rw [DRIFT_BOOST_DURATION]; norm_num)]
    · simp only [hi, Option.isSome_none, Bool.and_false, Bool.false_eq_true, if_false]
      refine ⟨rfl, rfl, rfl, fun _ => ⟨?_, ?_⟩, fun hle => absurd hb (not_lt.mpr hle)⟩
      · show (if DRIFT_BOOST_DURATION > 0 ∧ DRIFT_BOOST_DURATION - dt ≤ 0 then false
            else true) = true
        rw [if_neg]
        rintro ⟨-, h2⟩
        rw [DRIFT_BOOST_DURATION] at h2
        linarith
      · show (if DRIFT_BOOST_DURATION > 0 then DRIFT_BOOST_DURATION - dt
            else DRIFT_BOOST_DURATION) = DRIFT_BOOST_DURATION - dt
        rw [if_pos (by rw [DRIFT_BOOST_DURATION]; norm_num)]
  · simp only [hb, if_false]
    rcases hitem with hu | hi
    · simp only [hu, Bool.false_and, Bool.false_eq_true, if_false]
      exact ⟨rfl, rfl, rfl, fun hgt => hgt.elim, fun _ => ⟨rfl, rfl⟩⟩
    · simp only [hi, Option.isSome_none, Bool.and_false, Bool.false_eq_true, if_false]
      exact ⟨rfl, rfl, rfl, fun hgt => hgt.elim, fun _ => ⟨rfl, rfl⟩⟩

/-- The concrete drifting kart used by the C7 witness: charge 30.1,
drift key released. -/
def driftReleaseKart : Kart :=
  { mkKart 400 80 0 true with drifting := true, driftBoost := 30.1, speed := 100 }

/-- Witness for C7: a drifting kart with charge 30.1 releasing the drift
key fires the boost; every hypothesis is discharged at the concrete
input. -/
theorem C7_drift_release_witness :
    (updatePlayerKart driftReleaseKart keysOff (1 / 60) []).1.driftAngleOffset = 0 ∧
    (updatePlayerKart driftReleaseKart keysOff (1 / 60) []).1.drifting = false ∧
    (updatePlayerKart driftReleaseKart keysOff (1 / 60) []).1.driftBoost = 0 ∧
    (driftReleaseKart.driftBoost > 30 →
      (updatePlayerKart driftReleaseKart keysOff (1 / 60) []).1.boosting = true ∧
      (updatePlayerKart driftReleaseKart keysOff (1 / 60) []).1.boostTimer =
        DRIFT_BOOST_DURATION - 1 / 60) ∧
    (driftReleaseKart.driftBoost ≤ 30 →
      (updatePlayerKart driftReleaseKart keysOff (1 / 60) []).1.boosting =
        (driftReleaseKart.update (1 / 60)).boosting ∧
      (updatePlayerKart driftReleaseKart keysOff (1 / 60) []).1.boostTimer =
        (driftReleaseKart.update (1 / 60)).boostTimer) :=
  C7_drift_release driftReleaseKart keysOff (1 / 60) [] rfl rfl (by norm_num) (by norm_num)
    (Or.inl rfl) (by rintro (⟨hcon, -⟩); exact absurd hcon (by simp [keysOff]))

/-! ## Claim C1 -/

/-- The post-speed of the player step is the clamped speed, times the drift
grip factor when the drift branch was taken. -/
lemma updatePlayerKart_speed (k : Kart) (keys : Keys) (dt : ℝ) (others : List Kart)
    (hfin : k.finished = false) :
    (updatePlayerKart k keys dt others).1.speed = playerAccelSpeed k keys dt ∨
    (updatePlayerKart k keys dt others).1.speed = playerAccelSpeed k keys dt * DRIFT_GRIP := by
  simp only [updatePlayerKart, hfin, Bool.false_eq_true, if_false]
  split_ifs <;>
    simp only [update_speed, useItem_fst_speed] <;>
    first
    | exact Or.inl rfl
    | exact Or.inr rfl
    | exact Or.inl trivial
    | exact Or.inr trivial

/-- The post-speed of the AI step is its clamp to `[0, getMaxSpeed]`. -/
lemma updateAIKart_speed_bound (k : Kart) (dt : ℝ) (p : Option Kart)
    (others : List Kart) (roll : Bool) (hfin : k.finished = false) :
    0 ≤ (updateAIKart k dt p others roll).1.speed ∧
    (updateAIKart k dt p others roll).1.speed ≤ k.getMaxSpeed := by
  simp only [updateAIKart, hfin, Bool.false_eq_true, if_false]
  split_ifs <;>
    simp only [update_speed, useItem_fst_speed] <;>
    exact ⟨le_max_left 0 _, max_le (getMaxSpeed_nonneg k) (min_le_left _ _)⟩

/-- C1 amended: at the end of the per-kart physics step of a
non-finished kart, `0 ≤ speed ≤ getMaxSpeed()` holds with
`getMaxSpeed()` evaluated on the *pre-step* flags (the clamp precedes
the end-of-step timer decay, so a boost expiring within the same tick
can leave `speed` above the post-tick `getMaxSpeed()`), and the
collision pass preserves `0 ≤ speed` for every kart (but not the upper
bound: the kart-kart momentum transfer is not re-clamped). -/
theorem C1_speed_bound_amended :
    (∀ (k : Kart) (keys : Keys) (dt : ℝ) (others : List Kart), k.finished = false →
      0 ≤ (updatePlayerKart k keys dt others).1.speed ∧
      (updatePlayerKart k keys dt others).1.speed ≤ k.getMaxSpeed) ∧
    (∀ (k : Kart) (dt : ℝ) (p : Option Kart) (others : List Kart) (roll : Bool),
      k.finished = false →
      0 ≤ (updateAIKart k dt p others roll).1.speed ∧
      (updateAIKart k dt p others roll).1.speed ≤ k.getMaxSpeed) ∧
    (∀ (karts : List Kart) (ps : List PowerUp) (t : ℝ) (rand : ℕ → Item),
      (∀ k ∈ karts, 0 ≤ k.speed) →
      ∀ k ∈ (handleCollisions karts ps t rand).1, 0 ≤ k.speed) := by
  refine ⟨?_, ?_, handleCollisions_speed_nonneg⟩
  · intro k keys dt others hfin
    have hgrip : (0 : ℝ) ≤ DRIFT_GRIP ∧ DRIFT_GRIP ≤ 1 := by
      rw [DRIFT_GRIP]; norm_num
    rcases updatePlayerKart_speed k keys dt others hfin with h | h <;> rw [h]
    · exact ⟨playerAccelSpeed_nonneg k keys dt, playerAccelSpeed_le k keys dt⟩
    · constructor
      · exact mul_nonneg (playerAccelSpeed_nonneg k keys dt) hgrip.1
      · calc playerAccelSpeed k keys dt * DRIFT_GRIP ≤ playerAccelSpeed k keys dt * 1 :=
              mul_le_mul_of_nonneg_left hgrip.2 (playerAccelSpeed_nonneg k keys dt)
          _ = playerAccelSpeed k keys dt := mul_one _
          _ ≤ k.getMaxSpeed := playerAccelSpeed_le k keys dt
  · intro k dt p others roll hfin
    exact updateAIKart_speed_bound k dt p others roll hfin

/-- Witness for C1 (amended) at a concrete non-finished kart and a
concrete one-kart collision pass. -/
theorem C1_speed_bound_amended_witness :
    (0 ≤ (updatePlayerKart (mkKart 720 300 0 true) keysOff (1 / 60) []).1.speed ∧
      (updatePlayerKart (mkKart 720 300 0 true) keysOff (1 / 60) []).1.speed ≤
        (mkKart 720 300 0 true).getMaxSpeed) ∧
    (∀ k ∈ (handleCollisions [mkKart 720 300 0 true] [] 0 (fun _ => Item.boost)).1,
      0 ≤ k.speed) :=
  ⟨C1_speed_bound_amended.1 (mkKart 720 300 0 true) keysOff (1 / 60) [] rfl,
    C1_speed_bound_amended.2.2 [mkKart 720 300 0 true] [] 0 (fun _ => Item.boost)
      (by intro k hk; rw [List.mem_singleton.mp hk]; norm_num [mkKart])⟩

/-- The closed form of a player step in which the drift branch is not
taken, the kart was not drifting, and no item fires. -/
lemma updatePlayerKart_nodrift (k : Kart) (keys : Keys) (dt : ℝ) (others : List Kart)
    (hfin : k.finished = false) (hdr : k.drifting = false)
    (hitem : keys.useItem = false ∨ k.item = none)
    (hnd : ¬(keys.drift = true ∧ playerAccelSpeed k keys dt > 50 ∧ playerSteer keys ≠ 0)) :
    (updatePlayerKart k keys dt others).1 =
      Kart.update { k with
        speed := playerAccelSpeed k keys dt
        angle := k.angle + playerSteer keys * steerRateOf (playerAccelSpeed k keys dt) * dt
        vx := Real.cos (k.angle + playerSteer keys * steerRateOf (playerAccelSpeed k keys dt) * dt
            + k.driftAngleOffset) * playerAccelSpeed k keys dt * 0.5
        vy := Real.sin (k.angle + playerSteer keys * steerRateOf (playerAccelSpeed k keys dt) * dt
            + k.driftAngleOffset) * playerAccelSpeed k keys dt * 0.5
        x := k.x + Real.cos (k.angle + playerSteer keys * steerRateOf (playerAccelSpeed k keys dt)
            * dt + k.driftAngleOffset) * playerAccelSpeed k keys dt * 0.5 * dt
        y := k.y + Real.sin (k.angle + playerSteer keys * steerRateOf (playerAccelSpeed k keys dt)
            * dt + k.driftAngleOffset) * playerAccelSpeed k keys dt * 0.5 * dt } dt := by
  simp only [updatePlayerKart, hfin, hdr, hnd, Bool.false_eq_true, if_false]
  rcases hitem with hu | hi
  · simp only [hu, Bool.false_and, Bool.false_eq_true, if_false]
  · simp only [hi, Option.isSome_none, Bool.and_false, Bool.false_eq_true, if_false]

/-- The concrete kart of the C1 counterexample: boosting at the boosted
top speed 250 with the boost about to expire within the tick. -/
def boostExpiryKart : Kart :=
  { mkKart 720 300 0 true with boosting := true, boostTimer := 0.01, speed := 250 }

lemma boostExpiryKart_getMaxSpeed : boostExpiryKart.getMaxSpeed = 250 := by
  simp only [Kart.getMaxSpeed, boostExpiryKart, mkKart]
  norm_num [MAX_SPEED, DRIFT_BOOST_SPEED]

lemma boostExpiryKart_accel :
    playerAccelSpeed boostExpiryKart keysOff (1 / 60) = 748 / 3 := by
  simp only [playerAccelSpeed, keysOff, boostExpiryKart_getMaxSpeed]
  show max 0 (min 250 (boostExpiryKart.speed - DECELERATION * (1 / 60) * 0.5)) = 748 / 3
  rw [show boostExpiryKart.speed - DECELERATION * (1 / 60) * 0.5 = 748 / 3 by
    show (250 : ℝ) - DECELERATION * (1 / 60) * 0.5 = 748 / 3
    rw [DECELERATION]; norm_num]
  rw [min_eq_right (by norm_num), max_eq_right (by norm_num)]

/-- C1 counterexample: a full tick — the player physics step followed by
the collision pass — on `boostExpiryKart` ends with
`speed = 748/3 ≈ 249.3` while `getMaxSpeed()` has dropped back to 200
because the boost expired during the timer decay of the step itself, after the
speed clamp.  The tick-end invariant `speed ≤ getMaxSpeed()` is
therefore false. -/
theorem C1_speed_bound_cex :
    ((handleCollisions [(updatePlayerKart boostExpiryKart keysOff (1 / 60) []).1] [] 0
        (fun _ => Item.boost)).1.getD 0 default).speed >
    ((handleCollisions [(updatePlayerKart boostExpiryKart keysOff (1 / 60) []).1] [] 0
        (fun _ => Item.boost)).1.getD 0 default).getMaxSpeed := by
  have hstep := updatePlayerKart_nodrift boostExpiryKart keysOff (1 / 60) [] rfl rfl
    (Or.inl rfl)
    (by rintro ⟨hcon, -⟩; exact absurd hcon (by simp [keysOff]))
  have hsteer : playerSteer keysOff = 0 := rfl
  have hPspeed : (updatePlayerKart boostExpiryKart keysOff (1 / 60) []).1.speed = 748 / 3 := by
    rw [hstep, update_speed]
    exact boostExpiryKart_accel
  have hPboost : (updatePlayerKart boostExpiryKart keysOff (1 / 60) []).1.boosting = false := by
    rw [hstep]
    show (if (0.01 : ℝ) > 0 ∧ (0.01 : ℝ) - 1 / 60 ≤ 0 then false else true) = false
    rw [if_pos ⟨by norm_num, by norm_num⟩]
  have hPslow : (updatePlayerKart boostExpiryKart keysOff (1 / 60) []).1.slowed = false := by
    rw [hstep]
    show (if (0 : ℝ) > 0 ∧ (0 : ℝ) - 1 / 60 ≤ 0 then false else false) = false
    split_ifs <;> rfl
  have hPx : (updatePlayerKart boostExpiryKart keysOff (1 / 60) []).1.x = 64987 / 90 := by
    rw [hstep, update_x]
    show (720 : ℝ) + Real.cos (0 + playerSteer keysOff *
        steerRateOf (playerAccelSpeed boostExpiryKart keysOff (1 / 60)) * (1 / 60) + 0) *
        playerAccelSpeed boostExpiryKart keysOff (1 / 60) * 0.5 * (1 / 60) = 64987 / 90
    rw [hsteer, boostExpiryKart_accel]
    simp only [zero_mul, zero_add, add_zero, Real.cos_zero]
    norm_num
  have hPy : (updatePlayerKart boostExpiryKart keysOff (1 / 60) []).1.y = 300 := by
    rw [hstep, update_y]
    show (300 : ℝ) + Real.sin (0 + playerSteer keysOff *
        steerRateOf (playerAccelSpeed boostExpiryKart keysOff (1 / 60)) * (1 / 60) + 0) *
        playerAccelSpeed boostExpiryKart keysOff (1 / 60) * 0.5 * (1 / 60) = 300
    rw [hsteer, boostExpiryKart_accel]
    simp only [zero_mul, zero_add, add_zero, Real.sin_zero]
  rw [handleCollisions_singleton]
  have hwall : wallCheck (updatePlayerKart boostExpiryKart keysOff (1 / 60) []).1 =
      (updatePlayerKart boostExpiryKart keysOff (1 / 60) []).1 := by
    apply wallCheck_nofire
    rw [hPx, hPy, getTrackDistance_y300, innerLimit_eq, outerLimit_eq]
    rw [show (64987 : ℝ) / 90 - 400 = 28987 / 90 by norm_num,
      abs_of_nonneg (by norm_num : (0 : ℝ) ≤ (28987 : ℝ) / 90)]
    norm_num
  rw [hwall]
  simp only [List.getD, List.get?_cons_zero, List.getElem?_cons_zero, Option.getD_some]
  rw [checkCheckpoint_speed, hPspeed,
    getMaxSpeed_base _ (by rw [checkCheckpoint_boosting]; exact hPboost)
      (by rw [checkCheckpoint_slowed]; exact hPslow), MAX_SPEED]
  norm_num

/-! ## Claim C4 -/

lemma hypot_scale (a b c : ℝ) (hc : 0 ≤ c) : hypot (a * c) (b * c) = hypot a b * c := by
  unfold hypot
  rw [show (a * c) ^ 2 + (b * c) ^ 2 = (a ^ 2 + b ^ 2) * c ^ 2 by ring,
    Real.sqrt_mul (by positivity), Real.sqrt_sq hc]

lemma hypot_zero_zero : hypot 0 0 = 0 := by
  simp [hypot]

/-- C4 amended, part 1: resolving one overlapping pair leaves *that
pair* exactly `minDist = 25` apart and transfers 30% of the speed
differential.  (With three or more karts the push of a later pair can move an
already-resolved kart and re-violate an earlier pair, so the all-pairs
post-pass bound fails; see the counterexample.) -/
theorem C4_pair_separation (k1 k2 : Kart)
    (h : hypot (k2.x - k1.x) (k2.y - k1.y) < 25) :
    hypot ((resolvePair k1 k2).2.x - (resolvePair k1 k2).1.x)
      ((resolvePair k1 k2).2.y - (resolvePair k1 k2).1.y) = 25 ∧
    (resolvePair k1 k2).1.speed = k1.speed - (k1.speed - k2.speed) * 0.3 ∧
    (resolvePair k1 k2).2.speed = k2.speed + (k1.speed - k2.speed) * 0.3 := by
  simp only [resolvePair]
  rw [if_pos h]
  refine ⟨?_, rfl, rfl⟩
  rw [show k2.x + Real.cos (atan2 (k2.y - k1.y) (k2.x - k1.x)) *
        (25 - hypot (k2.x - k1.x) (k2.y - k1.y)) / 2 -
      (k1.x - Real.cos (atan2 (k2.y - k1.y) (k2.x - k1.x)) *
        (25 - hypot (k2.x - k1.x) (k2.y - k1.y)) / 2) =
      (k2.x - k1.x) + Real.cos (atan2 (k2.y - k1.y) (k2.x - k1.x)) *
        (25 - hypot (k2.x - k1.x) (k2.y - k1.y)) by ring]
  rw [show k2.y + Real.sin (atan2 (k2.y - k1.y) (k2.x - k1.x)) *
        (25 - hypot (k2.x - k1.x) (k2.y - k1.y)) / 2 -
      (k1.y - Real.sin (atan2 (k2.y - k1.y) (k2.x - k1.x)) *
        (25 - hypot (k2.x - k1.x) (k2.y - k1.y)) / 2) =
      (k2.y - k1.y) + Real.sin (atan2 (k2.y - k1.y) (k2.x - k1.x)) *
        (25 - hypot (k2.x - k1.x) (k2.y - k1.y)) by ring]
  by_cases hz : k2.x - k1.x = 0 ∧ k2.y - k1.y = 0
  · rw [hz.1, hz.2, atan2_origin, Real.cos_zero, Real.sin_zero, hypot_zero_zero]
    rw [show (0 : ℝ) + 1 * (25 - 0) = 25 by ring, show (0 : ℝ) + 0 * (25 - 0) = 0 by ring]
    exact hypot_x_of_nonneg 25 (by norm_num)
  · have hd : 0 < hypot (k2.x - k1.x) (k2.y - k1.y) := hypot_pos _ _ hz
    rw [cos_atan2 _ _ hz, sin_atan2]
    rw [show (k2.x - k1.x) + (k2.x - k1.x) / hypot (k2.x - k1.x) (k2.y - k1.y) *
          (25 - hypot (k2.x - k1.x) (k2.y - k1.y)) =
        (k2.x - k1.x) * (25 / hypot (k2.x - k1.x) (k2.y - k1.y)) by
      field_simp
      ring]
    rw [show (k2.y - k1.y) + (k2.y - k1.y) / hypot (k2.x - k1.x) (k2.y - k1.y) *
          (25 - hypot (k2.x - k1.x) (k2.y - k1.y)) =
        (k2.y - k1.y) * (25 / hypot (k2.x - k1.x) (k2.y - k1.y)) by
      field_simp
      ring]
    rw [hypot_scale _ _ _ (by positivity)]
    field_simp

/-- The concrete karts of scenario 4: 10 units apart with speeds 100 and
50. -/
def scenarioKart1 : Kart := { mkKart 720 300 0 false with speed := 100 }

def scenarioKart2 : Kart := { mkKart 730 300 0 false with speed := 50 }

/-- Witness for the amended C4 at the concrete values of scenario 4. -/
theorem C4_pair_separation_witness :
    hypot ((resolvePair scenarioKart1 scenarioKart2).2.x -
        (resolvePair scenarioKart1 scenarioKart2).1.x)
      ((resolvePair scenarioKart1 scenarioKart2).2.y -
        (resolvePair scenarioKart1 scenarioKart2).1.y) = 25 ∧
    (resolvePair scenarioKart1 scenarioKart2).1.speed =
      scenarioKart1.speed - (scenarioKart1.speed - scenarioKart2.speed) * 0.3 ∧
    (resolvePair scenarioKart1 scenarioKart2).2.speed =
      scenarioKart2.speed + (scenarioKart1.speed - scenarioKart2.speed) * 0.3 :=
  C4_pair_separation scenarioKart1 scenarioKart2 (by
    show hypot ((730 : ℝ) - 720) ((300 : ℝ) - 300) < 25
    rw [show (730 : ℝ) - 720 = 10 by norm_num, show (300 : ℝ) - 300 = 0 by norm_num,
      hypot_x_of_nonneg 10 (by norm_num)]
    norm_num)

/-- `resolvePair` in closed form for a horizontally aligned pair with
the first kart on the left. -/
lemma resolvePair_horiz_pos (k1 k2 : Kart) (hy : k2.y = k1.y)
    (h0 : k1.x < k2.x) (hd : k2.x - k1.x < 25) :
    (resolvePair k1 k2).1.x = k1.x - (25 - (k2.x - k1.x)) / 2 ∧
    (resolvePair k1 k2).1.y = k1.y ∧
    (resolvePair k1 k2).2.x = k2.x + (25 - (k2.x - k1.x)) / 2 ∧
    (resolvePair k1 k2).2.y = k2.y ∧
    (resolvePair k1 k2).1.speed = k1.speed - (k1.speed - k2.speed) * 0.3 ∧
    (resolvePair k1 k2).2.speed = k2.speed + (k1.speed - k2.speed) * 0.3 := by
  have hyy : k2.y - k1.y = 0 := by rw [hy]; ring
  have hdd : hypot (k2.x - k1.x) (k2.y - k1.y) = k2.x - k1.x := by
    rw [hyy, hypot_x_of_nonneg _ (by linarith)]
  have hcos : Real.cos (atan2 (k2.y - k1.y) (k2.x - k1.x)) = 1 := by
    rw [hyy, atan2_zero_of_nonneg _ (by linarith), Real.cos_zero]
  have hsin : Real.sin (atan2 (k2.y - k1.y) (k2.x - k1.x)) = 0 := by
    rw [hyy, atan2_zero_of_nonneg _ (by linarith), Real.sin_zero]
  simp only [resolvePair]
  rw [if_pos (by rw [hdd]; exact hd)]
  refine ⟨?_, ?_, ?_, ?_, rfl, rfl⟩
  · show k1.x - Real.cos (atan2 (k2.y - k1.y) (k2.x - k1.x)) *
        (25 - hypot (k2.x - k1.x) (k2.y - k1.y)) / 2 = _
    rw [hcos, hdd]
    ring
  · show k1.y - Real.sin (atan2 (k2.y - k1.y) (k2.x - k1.x)) *
        (25 - hypot (k2.x - k1.x) (k2.y - k1.y)) / 2 = _
    rw [hsin]
    ring
  · show k2.x + Real.cos (atan2 (k2.y - k1.y) (k2.x - k1.x)) *
        (25 - hypot (k2.x - k1.x) (k2.y - k1.y)) / 2 = _
    rw [hcos, hdd]
    ring
  · show k2.y + Real.sin (atan2 (k2.y - k1.y) (k2.x - k1.x)) *
        (25 - hypot (k2.x - k1.x) (k2.y - k1.y)) / 2 = _
    rw [hsin]
    ring

/-- `resolvePair` in closed form for a horizontally aligned pair with
the first kart on the right (the bump direction is `atan2 0 (−d) = π`). -/
lemma resolvePair_horiz_neg (k1 k2 : Kart) (hy : k2.y = k1.y)
    (h0 : k2.x < k1.x) (hd : k1.x - k2.x < 25) :
    (resolvePair k1 k2).1.x = k1.x + (25 - (k1.x - k2.x)) / 2 ∧
    (resolvePair k1 k2).1.y = k1.y ∧
    (resolvePair k1 k2).2.x = k2.x - (25 - (k1.x - k2.x)) / 2 ∧
    (resolvePair k1 k2).2.y = k2.y ∧
    (resolvePair k1 k2).1.speed = k1.speed - (k1.speed - k2.speed) * 0.3 ∧
    (resolvePair k1 k2).2.speed = k2.speed + (k1.speed - k2.speed) * 0.3 := by
  have hyy : k2.y - k1.y = 0 := by rw [hy]; ring
  have hdd : hypot (k2.x - k1.x) (k2.y - k1.y) = k1.x - k2.x := by
    rw [hyy, hypot_x_abs, abs_of_neg (by linarith : k2.x - k1.x < 0)]
    ring
  have hcos : Real.cos (atan2 (k2.y - k1.y) (k2.x - k1.x)) = -1 := by
    rw [hyy, atan2_zero_of_neg _ (by linarith), Real.cos_pi]
  have hsin : Real.sin (atan2 (k2.y - k1.y) (k2.x - k1.x)) = 0 := by
    rw [hyy, atan2_zero_of_neg _ (by linarith), Real.sin_pi]
  simp only [resolvePair]
  rw [if_pos (by rw [hdd]; exact hd)]
  refine ⟨?_, ?_, ?_, ?_, rfl, rfl⟩
  · show k1.x - Real.cos (atan2 (k2.y - k1.y) (k2.x - k1.x)) *
        (25 - hypot (k2.x - k1.x) (k2.y - k1.y)) / 2 = _
    rw [hcos, hdd]
    ring
  · show k1.y - Real.sin (atan2 (k2.y - k1.y) (k2.x - k1.x)) *
        (25 - hypot (k2.x - k1.x) (k2.y - k1.y)) / 2 = _
    rw [hsin]
    ring
  · show k2.x + Real.cos (atan2 (k2.y - k1.y) (k2.x - k1.x)) *
        (25 - hypot (k2.x - k1.x) (k2.y - k1.y)) / 2 = _
    rw [hcos, hdd]
    ring
  · show k2.y + Real.sin (atan2 (k2.y - k1.y) (k2.x - k1.x)) *
        (25 - hypot (k2.x - k1.x) (k2.y - k1.y)) / 2 = _
    rw [hsin]
    ring

/-- With no power-ups on the course, the per-kart collision phase is
wall correction followed by the checkpoint check for each kart. -/
lemma collisionPhase1_noPowerUps (t : ℝ) (rand : ℕ → Item) :
    ∀ (l : List Kart) (n : ℕ),
    (collisionPhase1 t rand l [] n).1 = l.map fun k => checkCheckpoint (wallCheck k) t := by
  intro l
  induction l with
  | nil => intro n; rfl
  | cons k rest ih =>
      intro n
      simp only [collisionPhase1, powerUpPass, List.map_cons]
      rw [ih]

/-- The kart-to-kart pass on a three-kart list, unrolled: the pairs are
resolved in the order (0,1), (0,2), (1,2), each reading the positions
left by the earlier resolutions. -/
lemma resolveAll_three (a b c : Kart) :
    resolveAll [a, b, c] =
      [(resolvePair (resolvePair a b).1 c).1,
       (resolvePair (resolvePair a b).2 (resolvePair (resolvePair a b).1 c).2).1,
       (resolvePair (resolvePair a b).2 (resolvePair (resolvePair a b).1 c).2).2] := by
  simp [resolveAll, resolveInner]

/-- The three karts of the C4 counterexample, collinear on the
horizontal track axis at `x = 720, 744, 732`. -/
def bumpKartA : Kart := mkKart 720 300 0 false

def bumpKartB : Kart := mkKart 744 300 0 false

def bumpKartC : Kart := mkKart 732 300 0 false

/-- C4 counterexample: with three karts the pair pass does not leave
every pair separated.  Starting from collinear karts at
`x = 720, 744, 732` (pairwise overlaps 24, 12 and 25 units — all under
`minDist = 25`), the full collision pass of the tick ends with karts 0
and 2 only `15.625` units apart, far below `minDist − ε` for any
floating-point tolerance: resolving pair (1,2) afterwards pushed kart 2
back toward the already-resolved position of kart 0. -/
theorem C4_no_overlap_cex :
    hypot
      (((handleCollisions [bumpKartA, bumpKartB, bumpKartC] [] 0
          (fun _ => Item.boost)).1.getD 2 default).x -
       ((handleCollisions [bumpKartA, bumpKartB, bumpKartC] [] 0
          (fun _ => Item.boost)).1.getD 0 default).x)
      (((handleCollisions [bumpKartA, bumpKartB, bumpKartC] [] 0
          (fun _ => Item.boost)).1.getD 2 default).y -
       ((handleCollisions [bumpKartA, bumpKartB, bumpKartC] [] 0
          (fun _ => Item.boost)).1.getD 0 default).y) = 15.625 ∧
    (15.625 : ℝ) < 24 := by
  have hA : wallCheck bumpKartA = bumpKartA := wallCheck_nofire _ (by
    show ¬(getTrackDistance 720 300 < innerLimit ∨ getTrackDistance 720 300 > outerLimit)
    rw [getTrackDistance_y300, innerLimit_eq, outerLimit_eq,
      show (720 : ℝ) - 400 = 320 by norm_num,
      abs_of_nonneg (by norm_num : (0 : ℝ) ≤ (320 : ℝ))]
    norm_num)
  have hB : wallCheck bumpKartB = bumpKartB := wallCheck_nofire _ (by
    show ¬(getTrackDistance 744 300 < innerLimit ∨ getTrackDistance 744 300 > outerLimit)
    rw [getTrackDistance_y300, innerLimit_eq, outerLimit_eq,
      show (744 : ℝ) - 400 = 344 by norm_num,
      abs_of_nonneg (by norm_num : (0 : ℝ) ≤ (344 : ℝ))]
    norm_num)
  have hC : wallCheck bumpKartC = bumpKartC := wallCheck_nofire _ (by
    show ¬(getTrackDistance 732 300 < innerLimit ∨ getTrackDistance 732 300 > outerLimit)
    rw [getTrackDistance_y300, innerLimit_eq, outerLimit_eq,
      show (732 : ℝ) - 400 = 332 by norm_num,
      abs_of_nonneg (by norm_num : (0 : ℝ) ≤ (332 : ℝ))]
    norm_num)
  have hax : (checkCheckpoint bumpKartA 0).x = 720 := by rw [checkCheckpoint_x]; rfl
  have hay : (checkCheckpoint bumpKartA 0).y = 300 := by rw [checkCheckpoint_y]; rfl
  have hbx : (checkCheckpoint bumpKartB 0).x = 744 := by rw [checkCheckpoint_x]; rfl
  have hby : (checkCheckpoint bumpKartB 0).y = 300 := by rw [checkCheckpoint_y]; rfl
  have hcx : (checkCheckpoint bumpKartC 0).x = 732 := by rw [checkCheckpoint_x]; rfl
  have hcy : (checkCheckpoint bumpKartC 0).y = 300 := by rw [checkCheckpoint_y]; rfl
  obtain ⟨h1x1, h1y1, h1x2, h1y2, -, -⟩ :=
    resolvePair_horiz_pos (checkCheckpoint bumpKartA 0) (checkCheckpoint bumpKartB 0)
      (by rw [hby, hay]) (by rw [hax, hbx]; norm_num) (by rw [hax, hbx]; norm_num)
  rw [hax, hbx] at h1x1 h1x2
  rw [hay] at h1y1
  rw [hby] at h1y2
  norm_num at h1x1 h1x2
  obtain ⟨h2x1, h2y1, h2x2, h2y2, -, -⟩ :=
    resolvePair_horiz_pos
      (resolvePair (checkCheckpoint bumpKartA 0) (checkCheckpoint bumpKartB 0)).1
      (checkCheckpoint bumpKartC 0)
      (by rw [hcy, h1y1]) (by rw [h1x1, hcx]; norm_num) (by rw [h1x1, hcx]; norm_num)
  rw [h1x1, hcx] at h2x1 h2x2
  rw [h1y1] at h2y1
  rw [hcy] at h2y2
  norm_num at h2x1 h2x2
  obtain ⟨h3x1, h3y1, h3x2, h3y2, -, -⟩ :=
    resolvePair_horiz_neg
      (resolvePair (checkCheckpoint bumpKartA 0) (checkCheckpoint bumpKartB 0)).2
      (resolvePair
        (resolvePair (checkCheckpoint bumpKartA 0) (checkCheckpoint bumpKartB 0)).1
        (checkCheckpoint bumpKartC 0)).2
      (by rw [h2y2, h1y2]) (by rw [h1x2, h2x2]; norm_num) (by rw [h1x2, h2x2]; norm_num)
  rw [h1x2, h2x2] at h3x1 h3x2
  rw [h2y2] at h3y2
  norm_num at h3x1 h3x2
  constructor
  · simp only [handleCollisions]
    rw [collisionPhase1_noPowerUps]
    simp only [List.map_cons, List.map_nil]
    rw [hA, hB, hC, resolveAll_three]
    simp only [List.getD, List.get?_cons_zero, List.get?_cons_succ,
      List.getElem?_cons_zero, List.getElem?_cons_succ, Option.getD_some]
    rw [h3x2, h2x1, h3y2, h2y1]
    rw [show (5831 : ℝ) / 8 - 2853 / 4 = 15.625 by norm_num,
      show (300 : ℝ) - 300 = 0 by norm_num,
      hypot_x_of_nonneg _ (by norm_num : (0 : ℝ) ≤ (15.625 : ℝ))]
  · norm_num

end

end MarioKart
